import Mathlib

/-!
Verification of the astrova-backend scoring core against its specification.

The Python source (src/kundali_maker.py, src/main.py) is shallowly embedded
here: machine floats are modelled by exact rationals (ℚ), Python dicts keyed
by planet names by functions out of an inductive `Planet` type, and `datetime`
arithmetic by rational day-counts measured from the birth instant (Python's
`datetime + timedelta(days=x)` becomes `t + x`).  The `round(years, 6)`
that the pipeline stores in each Mahadasha dict and feeds back into
`calculate_antardashas` is modelled exactly (`pyround6`); only rounding
that is never consumed computationally — `round(_, 2)` on serialized Bhava
and Shad Bala fields, `round(_, 6)` on the serialized Antardasha `years`
display field, and the microsecond quantization of `timedelta` — is left
out of the model.
-/

namespace Astrova

/-- The nine grahas used by the scoring core (keys of the Python dicts). -/
inductive Planet where
  | Sun | Moon | Mars | Mercury | Jupiter | Venus | Saturn | Rahu | Ketu
deriving DecidableEq, Repr

open Planet

/-- `DASHA_PERIODS` (kundali_maker.py:100): Vimshottari Dasha years per lord. -/
def DASHA_PERIODS : Planet → ℚ
  | Ketu => 7
  | Venus => 20
  | Sun => 6
  | Moon => 10
  | Mars => 7
  | Rahu => 18
  | Jupiter => 16
  | Saturn => 19
  | Mercury => 17

/-- `DASHA_ORDER` (kundali_maker.py:113): fixed cyclic 9-lord order. -/
def DASHA_ORDER : List Planet :=
  [Ketu, Venus, Sun, Moon, Mars, Rahu, Jupiter, Saturn, Mercury]

/-- `VIMSHOTTARI_CYCLE` (kundali_maker.py:118). -/
def VIMSHOTTARI_CYCLE : ℚ := 120

/-- `DASHA_ORDER.index(planet)` (kundali_maker.py:1806,1861). -/
def dashaOrderIndex : Planet → ℕ
  | Ketu => 0
  | Venus => 1
  | Sun => 2
  | Moon => 3
  | Mars => 4
  | Rahu => 5
  | Jupiter => 6
  | Saturn => 7
  | Mercury => 8

/-- `DASHA_ORDER[i]` for an index already reduced mod 9; totalized with a
default that is never reached at the call sites (the index is `_ % 9`). -/
def dashaOrderGet (i : ℕ) : Planet := DASHA_ORDER.getD i Ketu

/-- Python's `a % b` for rationals and positive `b` (sign follows the
divisor): `a - b * ⌊a / b⌋`. -/
def pymod (a b : ℚ) : ℚ := a - b * ⌊a / b⌋

/-- `normalize` / `norm_deg` (kundali_maker.py:121,730,1116): reduce a degree
value into [0, 360).  For rationals `pymod _ 360` is already nonnegative, so
the `if` branch is dead, exactly as it is for Python floats. -/
def normalize (deg : ℚ) : ℚ :=
  let d := pymod deg 360
  if d < 0 then d + 360 else d

/-- `angular_distance` (kundali_maker.py:734,1120): separation of two
longitudes, in [0, 180]. -/
def angular_distance (a b : ℚ) : ℚ :=
  let d := |normalize a - normalize b|
  min d (360 - d)

/-! ### Vimshottari Dasha generator (kundali_maker.py:1752-1929) -/

/-- Width of one nakshatra, `360 / 27` degrees. -/
def NAK_LEN : ℚ := 360 / 27

/-- `nakshatra_lords` (kundali_maker.py:1762): the 9-lord pattern repeated
three times over the 27 nakshatras. -/
def nakshatra_lords : List Planet := DASHA_ORDER ++ DASHA_ORDER ++ DASHA_ORDER

/-- `int(moon_longitude / (360 / 27))` (kundali_maker.py:1758).  Python's
`int()` truncates toward zero; on the nonnegative longitudes the generator
receives this is the floor. -/
def nakshatraIndex (moonLon : ℚ) : ℤ := ⌊moonLon / NAK_LEN⌋

/-- One Mahadasha segment of the generated timeline.  Times are rational
day-counts from the birth instant; `years` is the (unrounded) duration in
365.25-day years. -/
structure DashaSegment where
  planet : Planet
  startDay : ℚ
  endDay : ℚ
  years : ℚ
  totalYears : ℚ
  yearsPassed : ℚ
  isCurrent : Bool
deriving DecidableEq, Repr

/-- The loop `for i in range(1, 9)` (kundali_maker.py:1809-1833): emit `n`
full Mahadasha segments starting at day `t`, taking lords cyclically from
position `idx` of `DASHA_ORDER`. -/
def buildFullSegments : ℕ → ℕ → ℚ → List DashaSegment
  | 0, _, _ => []
  | n + 1, idx, t =>
    let p := dashaOrderGet (idx % 9)
    let y := DASHA_PERIODS p
    { planet := p, startDay := t, endDay := t + y * 365.25,
      years := y, totalYears := y, yearsPassed := 0, isCurrent := false }
      :: buildFullSegments n (idx + 1) (t + y * 365.25)

/-- Result of `calculate_vimshottari_dasha`; `moonNakshatra` is the 1-based
nakshatra number the source returns. -/
structure VimshottariResult where
  currentLord : Planet
  moonNakshatra : ℤ
  periods : List DashaSegment
deriving Repr

/-- Fallback segment used only to totalize `List.headD` on the (provably
nonempty) period list. -/
def dfltSegment : DashaSegment :=
  { planet := Ketu, startDay := 0, endDay := 0, years := 0,
    totalYears := 0, yearsPassed := 0, isCurrent := false }

/-- `calculate_vimshottari_dasha` (kundali_maker.py:1752-1841), with the
birth instant at day 0. -/
def calculate_vimshottari_dasha (moonLon : ℚ) : VimshottariResult :=
  let nakIdx : ℕ := (nakshatraIndex moonLon).toNat
  let lord := nakshatra_lords.getD nakIdx Ketu
  let nakshatraDegree := pymod moonLon NAK_LEN
  let portion := nakshatraDegree / NAK_LEN
  let totalYears := DASHA_PERIODS lord
  let yearsPassed := totalYears * portion
  let yearsRemaining := totalYears - yearsPassed
  let seg0 : DashaSegment :=
    { planet := lord, startDay := 0, endDay := yearsRemaining * 365.25,
      years := yearsRemaining, totalYears := totalYears,
      yearsPassed := yearsPassed, isCurrent := true }
  { currentLord := lord,
    moonNakshatra := nakshatraIndex moonLon + 1,
    periods := seg0 :: buildFullSegments 8 (dashaOrderIndex lord + 1) seg0.endDay }

/-! ### Antardasha subdivision (kundali_maker.py:1844-1929) -/

/-- One Antardasha sub-period; times are day-counts from birth. -/
structure Antardasha where
  planet : Planet
  startDay : ℚ
  endDay : ℚ
deriving DecidableEq, Repr

/-- Duration in 365.25-day years, `(end - start).total_seconds() / (365.25 *
24 * 3600)` before the serialization `round(_, 6)` (kundali_maker.py:1900). -/
def Antardasha.years (a : Antardasha) : ℚ := (a.endDay - a.startDay) / 365.25

/-- The skip tolerance `1e-12` of kundali_maker.py:1873-1882. -/
def SKIP_EPS : ℚ := 1 / 10 ^ 12

/-- The full 9-entry Antardasha sequence with proportional durations,
`full_seq` (kundali_maker.py:1864-1868): entry `i` is lord
`DASHA_ORDER[(start_index + i) % 9]` with years
`mahadasha_full_years * DASHA_PERIODS[lord] / 120`. -/
def fullSeq (dashaPlanet : Planet) : List (Planet × ℚ) :=
  (List.range 9).map fun i =>
    let p := dashaOrderGet ((dashaOrderIndex dashaPlanet + i) % 9)
    (p, DASHA_PERIODS dashaPlanet * DASHA_PERIODS p / VIMSHOTTARI_CYCLE)

/-- The skip loop (kundali_maker.py:1871-1879): walk the sequence while the
remaining elapsed budget exceeds `1e-12`, consuming entries whose duration
fits within tolerance; returns the unconsumed suffix and the residual. -/
def skipElapsed : List (Planet × ℚ) → ℚ → List (Planet × ℚ) × ℚ
  | [], r => ([], r)
  | (p, d) :: rest, r =>
    if r > SKIP_EPS then
      if r ≥ d - SKIP_EPS then skipElapsed rest (r - d)
      else ((p, d) :: rest, r)
    else ((p, d) :: rest, r)

/-- The emission loop (kundali_maker.py:1906-1927): emit entries while the
current instant is before the segment end, clipping each end to the segment
end. -/
def emitFull : List (Planet × ℚ) → ℚ → ℚ → List Antardasha
  | [], _, _ => []
  | (p, d) :: rest, cur, segEnd =>
    if cur < segEnd then
      let e := cur + d * 365.25
      let e2 := if e > segEnd then segEnd else e
      { planet := p, startDay := cur, endDay := e2 } :: emitFull rest e2 segEnd
    else []

/-- Emission phase of `calculate_antardashas` (kundali_maker.py:1882-1927),
applied to the suffix and residual returned by the skip loop: when the
residual exceeds `1e-12` the first entry is emitted shortened to its
remaining portion (end clipped to the segment end), then the emission loop
continues over the rest of the sequence. -/
def antFinish : List (Planet × ℚ) → ℚ → ℚ → ℚ → List Antardasha
  | [], _, _, _ => []
  | (p, d) :: rest, r, startDay, segEnd =>
    if r > SKIP_EPS then
      let remainingYears := d - r
      let e := startDay + remainingYears * 365.25
      let e2 := if e > segEnd then segEnd else e
      { planet := p, startDay := startDay, endDay := e2 } :: emitFull rest e2 segEnd
    else emitFull ((p, d) :: rest) startDay segEnd

/-- `calculate_antardashas` (kundali_maker.py:1844-1929): build the full
9-entry proportional sequence, skip the elapsed budget, then emit the
remaining Antardashas clipped to the segment window. -/
def calculate_antardashas (dashaPlanet : Planet) (dashaStartDay dashaYears : ℚ) :
    List Antardasha :=
  let segmentEnd := dashaStartDay + dashaYears * 365.25
  let mahadashaFullYears := DASHA_PERIODS dashaPlanet
  let elapsedYears := max 0 (mahadashaFullYears - dashaYears)
  let s := skipElapsed (fullSeq dashaPlanet) elapsedYears
  antFinish s.1 s.2 dashaStartDay segmentEnd

/-- Sum of the `years` durations of a list of Antardashas. -/
def antYearsSum (l : List Antardasha) : ℚ := (l.map Antardasha.years).sum

/-- End instant of the last Antardasha, with a default for the empty list. -/
def lastEnd (l : List Antardasha) (dflt : ℚ) : ℚ :=
  ((l.getLast?).map Antardasha.endDay).getD dflt

/-- Contiguity from an anchor instant: the first period starts at the
anchor and every later period starts at the instant the previous one ends. -/
def chainedFrom : ℚ → List Antardasha → Prop
  | _, [] => True
  | c, a :: l => a.startDay = c ∧ chainedFrom a.endDay l

/-- Sum of the raw spans `endDay - startDay` of a list of Antardashas. -/
def spanSum (l : List Antardasha) : ℚ :=
  (l.map fun a => a.endDay - a.startDay).sum

/-! ### Basic arithmetic facts about the embedded helpers -/

theorem pymod_eq_fract (a b : ℚ) (hb : b ≠ 0) :
    pymod a b = b * Int.fract (a / b) := by
  unfold pymod Int.fract
  field_simp

theorem pymod_nonneg (a b : ℚ) (hb : 0 < b) : 0 ≤ pymod a b := by
  rw [pymod_eq_fract a b hb.ne.symm]
  exact mul_nonneg hb.le (Int.fract_nonneg _)

theorem pymod_lt (a b : ℚ) (hb : 0 < b) : pymod a b < b := by
  rw [pymod_eq_fract a b hb.ne.symm]
  nlinarith [Int.fract_lt_one (a / b)]

theorem normalize_eq_pymod (d : ℚ) : normalize d = pymod d 360 := by
  unfold normalize
  rw [if_neg]
  exact not_lt.mpr (pymod_nonneg d 360 (by norm_num))

theorem normalize_nonneg (d : ℚ) : 0 ≤ normalize d := by
  rw [normalize_eq_pymod]; exact pymod_nonneg d 360 (by norm_num)

theorem normalize_lt_360 (d : ℚ) : normalize d < 360 := by
  rw [normalize_eq_pymod]; exact pymod_lt d 360 (by norm_num)

theorem angular_distance_nonneg (a b : ℚ) : 0 ≤ angular_distance a b := by
  unfold angular_distance
  have h1 := normalize_nonneg a
  have h2 := normalize_nonneg b
  have h3 := normalize_lt_360 a
  have h4 := normalize_lt_360 b
  have habs : |normalize a - normalize b| < 360 := by
    rw [abs_lt]; constructor <;> linarith
  exact le_min (abs_nonneg _) (by linarith)

theorem angular_distance_le_180 (a b : ℚ) : angular_distance a b ≤ 180 := by
  unfold angular_distance
  have h1 := normalize_nonneg a
  have h2 := normalize_nonneg b
  have h3 := normalize_lt_360 a
  have h4 := normalize_lt_360 b
  have habs : |normalize a - normalize b| < 360 := by
    rw [abs_lt]; constructor <;> linarith
  rcases le_total |normalize a - normalize b| 180 with h | h
  · exact le_trans (min_le_left _ _) h
  · exact le_trans (min_le_right _ _) (by linarith)

theorem DASHA_PERIODS_pos (p : Planet) : 0 < DASHA_PERIODS p := by
  cases p <;> norm_num [DASHA_PERIODS]

theorem SKIP_EPS_pos : 0 < SKIP_EPS := by norm_num [SKIP_EPS]

/-! ### Structural lemmas about the Antardasha emission loops -/

theorem antYearsSum_eq_spanSum (l : List Antardasha) :
    antYearsSum l = spanSum l / 365.25 := by
  induction l with
  | nil => simp [antYearsSum, spanSum]
  | cons a l ih =>
    simp only [antYearsSum, spanSum, List.map_cons, List.sum_cons] at *
    rw [ih, Antardasha.years, add_div]

theorem lastEnd_nil (dflt : ℚ) : lastEnd [] dflt = dflt := rfl

theorem lastEnd_cons (a : Antardasha) (l : List Antardasha) (dflt : ℚ) :
    lastEnd (a :: l) dflt = lastEnd l a.endDay := by
  cases l with
  | nil => simp [lastEnd]
  | cons b l2 =>
    have hs : ((b :: l2).getLast?).isSome := by
      simp [List.getLast?_isSome]
    obtain ⟨z, hz⟩ := Option.isSome_iff_exists.mp hs
    simp [lastEnd, List.getLast?_cons_cons, hz]

theorem chainedFrom_lastEnd (l : List Antardasha) :
    ∀ c : ℚ, chainedFrom c l → lastEnd l c = c + spanSum l := by
  induction l with
  | nil => intro c _; simp [lastEnd_nil, spanSum]
  | cons a l ih =>
    intro c h
    obtain ⟨ha, h2⟩ := h
    rw [lastEnd_cons, ih a.endDay h2]
    simp only [spanSum, List.map_cons, List.sum_cons]
    rw [ha]
    ring

theorem emitFull_chained (L : List (Planet × ℚ)) :
    ∀ cur segEnd : ℚ, chainedFrom cur (emitFull L cur segEnd) := by
  induction L with
  | nil => intro cur segEnd; simp [emitFull, chainedFrom]
  | cons x rest ih =>
    intro cur segEnd
    obtain ⟨p, d⟩ := x
    by_cases h : cur < segEnd
    · simp only [emitFull, if_pos h, chainedFrom]
      exact ⟨by trivial, ih _ _⟩
    · simp [emitFull, if_neg h, chainedFrom]

theorem emitFull_mem_bounds (L : List (Planet × ℚ)) :
    ∀ cur segEnd : ℚ, (∀ x ∈ L, 0 ≤ x.2) → cur ≤ segEnd →
      ∀ a ∈ emitFull L cur segEnd, a.startDay ≤ a.endDay ∧ a.endDay ≤ segEnd := by
  induction L with
  | nil => intro cur segEnd _ _ a ha; simp [emitFull] at ha
  | cons x rest ih =>
    intro cur segEnd hd hcur a ha
    obtain ⟨p, d⟩ := x
    have hd0 : 0 ≤ d := hd (p, d) (List.mem_cons_self _ _)
    by_cases h : cur < segEnd
    · simp only [emitFull, if_pos h, List.mem_cons] at ha
      set e2 : ℚ := if cur + d * 365.25 > segEnd then segEnd else cur + d * 365.25 with he2
      have he2a : cur ≤ e2 ∧ e2 ≤ segEnd := by
        rw [he2]
        split_ifs with hc
        · exact ⟨h.le, le_refl _⟩
        · exact ⟨by nlinarith, not_lt.mp hc⟩
      rcases ha with rfl | ha
      · exact ⟨he2a.1, he2a.2⟩
      · exact ih e2 segEnd (fun y hy => hd y (List.mem_cons_of_mem _ hy)) he2a.2 a ha
    · simp [emitFull, if_neg h] at ha

theorem emitFull_spanSum (L : List (Planet × ℚ)) :
    ∀ cur segEnd : ℚ, (∀ x ∈ L, 0 ≤ x.2) → cur ≤ segEnd →
      spanSum (emitFull L cur segEnd)
        = min ((L.map Prod.snd).sum * 365.25) (segEnd - cur) := by
  induction L with
  | nil =>
    intro cur segEnd _ hcur
    simp only [emitFull, List.map_nil, List.sum_nil, zero_mul]
    rw [min_eq_left (by linarith)]
    simp [spanSum]
  | cons x rest ih =>
    intro cur segEnd hd hcur
    obtain ⟨p, d⟩ := x
    have hd0 : 0 ≤ d := hd (p, d) (List.mem_cons_self _ _)
    have hrest0 : 0 ≤ (rest.map Prod.snd).sum := by
      apply List.sum_nonneg
      intro y hy
      simp only [List.mem_map] at hy
      obtain ⟨z, hz, rfl⟩ := hy
      exact hd z (List.mem_cons_of_mem _ hz)
    by_cases h : cur < segEnd
    · simp only [emitFull, if_pos h]
      set e2 : ℚ := if cur + d * 365.25 > segEnd then segEnd else cur + d * 365.25 with he2
      have he2le : e2 ≤ segEnd := by
        rw [he2]; split_ifs with hc
        · exact le_refl _
        · exact not_lt.mp hc
      have hspan : spanSum ({ planet := p, startDay := cur, endDay := e2 }
            :: emitFull rest e2 segEnd)
          = (e2 - cur) + spanSum (emitFull rest e2 segEnd) := by
        simp [spanSum]
      rw [hspan, ih e2 segEnd (fun y hy => hd y (List.mem_cons_of_mem _ hy)) he2le]
      simp only [List.map_cons, List.sum_cons]
      rw [he2]
      split_ifs with hc
      · have hm1 : min ((rest.map Prod.snd).sum * 365.25) (segEnd - segEnd) = 0 := by
          rw [sub_self]
          exact min_eq_right (by nlinarith)
        have hm2 : min ((d + (rest.map Prod.snd).sum) * 365.25) (segEnd - cur)
            = segEnd - cur := min_eq_right (by nlinarith)
        rw [hm1, hm2]
        ring
      · rw [← min_add_add_left]
        congr 1 <;> ring
    · simp only [emitFull, if_neg h]
      have he : segEnd = cur := le_antisymm (not_lt.mp h) hcur
      have : spanSum ([] : List Antardasha) = 0 := by simp [spanSum]
      rw [this, he, sub_self]
      simp only [List.map_cons, List.sum_cons]
      exact (min_eq_right (by nlinarith)).symm

theorem emitFull_ne_nil (x : Planet × ℚ) (rest : List (Planet × ℚ))
    (cur segEnd : ℚ) (h : cur < segEnd) : emitFull (x :: rest) cur segEnd ≠ [] := by
  obtain ⟨p, d⟩ := x
  simp [emitFull, if_pos h]

theorem skipElapsed_spec (L : List (Planet × ℚ)) :
    ∀ r0 : ℚ, (∀ x ∈ L, 0 ≤ x.2) → -SKIP_EPS ≤ r0 →
      ((skipElapsed L r0).1.map Prod.snd).sum + r0 - (skipElapsed L r0).2
          = (L.map Prod.snd).sum ∧
      -SKIP_EPS ≤ (skipElapsed L r0).2 ∧ (skipElapsed L r0).2 ≤ r0 ∧
      (∀ p d rest, (skipElapsed L r0).1 = (p, d) :: rest →
        SKIP_EPS < (skipElapsed L r0).2 → (skipElapsed L r0).2 < d - SKIP_EPS) ∧
      (∀ x ∈ (skipElapsed L r0).1, x ∈ L) := by
  induction L with
  | nil =>
    intro r0 _ h0
    refine ⟨by simp [skipElapsed], by simpa [skipElapsed] using h0,
      by simp [skipElapsed], ?_, by simp [skipElapsed]⟩
    intro p d rest hco
    simp [skipElapsed] at hco
  | cons x rest ih =>
    intro r0 hd h0
    obtain ⟨p, d⟩ := x
    have hd0 : 0 ≤ d := hd (p, d) (List.mem_cons_self _ _)
    by_cases h1 : r0 > SKIP_EPS
    · by_cases h2 : r0 ≥ d - SKIP_EPS
      · have h0x : -SKIP_EPS ≤ r0 - d := by linarith
        have hrec := ih (r0 - d) (fun y hy => hd y (List.mem_cons_of_mem _ hy)) h0x
        have hstep : skipElapsed ((p, d) :: rest) r0 = skipElapsed rest (r0 - d) := by
          simp only [skipElapsed]
          split_ifs <;>
            first
            | rfl
            | (exfalso; simp only [not_le, not_lt, ge_iff_le] at *; linarith)
            | (intro hc; exfalso; simp only [not_le, not_lt, ge_iff_le] at *; linarith)
        rw [hstep]
        refine ⟨?_, hrec.2.1, by linarith [hrec.2.2.1], hrec.2.2.2.1,
          fun y hy => List.mem_cons_of_mem _ (hrec.2.2.2.2 y hy)⟩
        simp only [List.map_cons, List.sum_cons]
        linarith [hrec.1]
      · have hstep : skipElapsed ((p, d) :: rest) r0 = ((p, d) :: rest, r0) := by
          simp only [skipElapsed]
          split_ifs <;>
            first
            | rfl
            | (exfalso; simp only [not_le, not_lt, ge_iff_le] at h1 h2 ⊢; linarith)
            | (intro hc; exfalso; simp only [not_le, not_lt, ge_iff_le] at h1 h2 hc ⊢; linarith)
        rw [hstep]
        refine ⟨by ring, by linarith, le_refl _, ?_, fun y hy => hy⟩
        intro q e rest2 hco _
        have : e = d := by
          injection hco with hco1 _
          injection hco1 with _ hco2
          exact hco2.symm
        rw [this]
        linarith [not_le.mp h2]
    · have hstep : skipElapsed ((p, d) :: rest) r0 = ((p, d) :: rest, r0) := by
        simp only [skipElapsed]
        split_ifs <;>
          first
          | rfl
          | (exfalso; simp only [not_le, not_lt, ge_iff_le] at h1 h2 ⊢; linarith)
          | (intro hc; exfalso; simp only [not_le, not_lt, ge_iff_le] at h1 h2 hc ⊢; linarith)
      rw [hstep]
      refine ⟨by ring, h0, le_refl _, ?_, fun y hy => hy⟩
      intro q e rest2 _ hgt
      exact absurd hgt h1

theorem fullSeq_snd_nonneg (p : Planet) : ∀ x ∈ fullSeq p, 0 ≤ x.2 := by
  intro x hx
  simp only [fullSeq, List.mem_map] at hx
  obtain ⟨i, _, rfl⟩ := hx
  have h1 := (DASHA_PERIODS_pos p).le
  have h2 := (DASHA_PERIODS_pos (dashaOrderGet ((dashaOrderIndex p + i) % 9))).le
  simp only [VIMSHOTTARI_CYCLE]
  exact div_nonneg (mul_nonneg h1 h2) (by norm_num)

theorem fullSeq_sum (p : Planet) :
    ((fullSeq p).map Prod.snd).sum = DASHA_PERIODS p := by
  have h9 : List.range 9 = [0, 1, 2, 3, 4, 5, 6, 7, 8] := rfl
  cases p <;>
    norm_num [fullSeq, h9, dashaOrderGet, dashaOrderIndex, DASHA_ORDER,
      DASHA_PERIODS, VIMSHOTTARI_CYCLE, List.getD]

end Astrova

namespace Astrova

open Planet

/-- Core properties of the emission loop over a window of `y` years when the
entry durations sum to `y + rr` with `|rr| ≤ SKIP_EPS`: the emitted periods
chain contiguously from the window start, stay inside the window, their
durations sum to `min (y + rr) y`, and the last end lands within
`SKIP_EPS` years of the window end. -/
theorem emitProps (L2 : List (Planet × ℚ)) (t y rr : ℚ)
    (hnn : ∀ x ∈ L2, 0 ≤ x.2) (hy : 0 < y)
    (hsum : (L2.map Prod.snd).sum = y + rr)
    (hr1 : -SKIP_EPS ≤ rr) (hr2 : rr ≤ SKIP_EPS) :
    chainedFrom t (emitFull L2 t (t + y * 365.25)) ∧
    (∀ a ∈ emitFull L2 t (t + y * 365.25),
      a.startDay ≤ a.endDay ∧ a.endDay ≤ t + y * 365.25) ∧
    y - SKIP_EPS ≤ antYearsSum (emitFull L2 t (t + y * 365.25)) ∧
    antYearsSum (emitFull L2 t (t + y * 365.25)) ≤ y ∧
    t + y * 365.25 - SKIP_EPS * 365.25 ≤ lastEnd (emitFull L2 t (t + y * 365.25)) t ∧
    lastEnd (emitFull L2 t (t + y * 365.25)) t ≤ t + y * 365.25 ∧
    (L2 ≠ [] → emitFull L2 t (t + y * 365.25) ≠ []) := by
  have htle : t ≤ t + y * 365.25 := by nlinarith
  have hchain := emitFull_chained L2 t (t + y * 365.25)
  have hbounds := emitFull_mem_bounds L2 t (t + y * 365.25) hnn htle
  have hspan := emitFull_spanSum L2 t (t + y * 365.25) hnn htle
  rw [hsum] at hspan
  have hminspan : spanSum (emitFull L2 t (t + y * 365.25)) = min (y + rr) y * 365.25 := by
    rw [hspan]
    rcases le_total (y + rr) y with hc | hc
    · rw [min_eq_left hc, min_eq_left (by nlinarith)]
    · rw [min_eq_right hc, min_eq_right (by nlinarith)]
      ring
  have hyears : antYearsSum (emitFull L2 t (t + y * 365.25)) = min (y + rr) y := by
    rw [antYearsSum_eq_spanSum, hminspan]
    field_simp
  have hminlow : y - SKIP_EPS ≤ min (y + rr) y := le_min (by linarith) (by linarith)
  have hminhi : min (y + rr) y ≤ y := min_le_right _ _
  have hlast : lastEnd (emitFull L2 t (t + y * 365.25)) t
      = t + min (y + rr) y * 365.25 := by
    rw [chainedFrom_lastEnd _ t hchain, hminspan]
  refine ⟨hchain, hbounds, by rw [hyears]; exact hminlow, by rw [hyears]; exact hminhi,
    ?_, ?_, ?_⟩
  · rw [hlast]; nlinarith
  · rw [hlast]; nlinarith
  · intro hne
    match L2, hne with
    | x :: rest, _ =>
      exact emitFull_ne_nil x rest t (t + y * 365.25) (by nlinarith)

/-- Master invariant of `calculate_antardashas` for a segment of `y` years
with `0 < y ≤` the Mahadasha lord's full years: contiguity from the segment
start, containment in the segment window, duration sum within `SKIP_EPS`
of `y`, last end within `SKIP_EPS` years of the segment end, and
nonemptiness whenever `y` exceeds the skip tolerance. -/
theorem calculate_antardashas_spec (p : Planet) (t y : ℚ)
    (hy : 0 < y) (hyF : y ≤ DASHA_PERIODS p) :
    chainedFrom t (calculate_antardashas p t y) ∧
    (∀ a ∈ calculate_antardashas p t y,
      a.startDay ≤ a.endDay ∧ a.endDay ≤ t + y * 365.25) ∧
    y - SKIP_EPS ≤ antYearsSum (calculate_antardashas p t y) ∧
    antYearsSum (calculate_antardashas p t y) ≤ y ∧
    t + y * 365.25 - SKIP_EPS * 365.25 ≤ lastEnd (calculate_antardashas p t y) t ∧
    lastEnd (calculate_antardashas p t y) t ≤ t + y * 365.25 ∧
    (SKIP_EPS < y → calculate_antardashas p t y ≠ []) := by
  have hF := DASHA_PERIODS_pos p
  have heps := SKIP_EPS_pos
  have helap : max 0 (DASHA_PERIODS p - y) = DASHA_PERIODS p - y :=
    max_eq_right (by linarith)
  have hw : calculate_antardashas p t y
      = antFinish (skipElapsed (fullSeq p) (max 0 (DASHA_PERIODS p - y))).1
          (skipElapsed (fullSeq p) (max 0 (DASHA_PERIODS p - y))).2 t
          (t + y * 365.25) := rfl
  rw [helap] at hw
  have hspec := skipElapsed_spec (fullSeq p) (DASHA_PERIODS p - y)
    (fullSeq_snd_nonneg p) (by linarith)
  rw [fullSeq_sum p] at hspec
  obtain ⟨hsum, hrlow, hrhi, hinside, hmem⟩ := hspec
  rcases hs1 : (skipElapsed (fullSeq p) (DASHA_PERIODS p - y)).1 with _ | ⟨⟨q, dq⟩, rest⟩
  · -- the skip loop consumed the whole sequence: no Antardashas are emitted,
    -- which forces y ≤ SKIP_EPS
    rw [hs1] at hsum
    simp only [List.map_nil, List.sum_nil] at hsum
    have hyle : y ≤ SKIP_EPS := by
      have : (skipElapsed (fullSeq p) (DASHA_PERIODS p - y)).2
          = y + (skipElapsed (fullSeq p) (DASHA_PERIODS p - y)).2 - y := by ring
      linarith [hrlow]
    rw [hs1] at hw
    simp only [antFinish] at hw
    rw [hw]
    refine ⟨trivial, by intro a ha; simp at ha, ?_, ?_, ?_, ?_, ?_⟩
    · simp only [antYearsSum, List.map_nil, List.sum_nil]
      linarith
    · simp only [antYearsSum, List.map_nil, List.sum_nil]
      linarith
    · rw [lastEnd_nil]; nlinarith
    · rw [lastEnd_nil]; nlinarith
    · intro hlt; exact absurd (lt_of_lt_of_le hlt hyle) (lt_irrefl _)
  · rw [hs1] at hsum hmem
    simp only [List.map_cons, List.sum_cons] at hsum
    have hdq0 : 0 ≤ dq :=
      fullSeq_snd_nonneg p (q, dq) (hmem (q, dq) (List.mem_cons_self _ _))
    have hrestnn : ∀ x ∈ rest, 0 ≤ x.2 :=
      fun x hx => fullSeq_snd_nonneg p x (hmem x (List.mem_cons_of_mem _ hx))
    rw [hs1] at hw
    by_cases hr : (skipElapsed (fullSeq p) (DASHA_PERIODS p - y)).2 > SKIP_EPS
    · -- shortened first Antardasha: the emitted list is the emission loop on
      -- the sequence with the first duration reduced by the residual
      have hin := hinside q dq rest hs1 hr
      have hfin : antFinish ((q, dq) :: rest)
          (skipElapsed (fullSeq p) (DASHA_PERIODS p - y)).2 t (t + y * 365.25)
          = emitFull ((q, dq - (skipElapsed (fullSeq p) (DASHA_PERIODS p - y)).2) :: rest)
              t (t + y * 365.25) := by
        simp only [antFinish, if_pos hr]
        have htlt : t < t + y * 365.25 := by nlinarith
        conv_rhs => rw [emitFull]
        rw [if_pos htlt]
      rw [hfin] at hw
      rw [hw]
      have hnn2 : ∀ x ∈ ((q, dq - (skipElapsed (fullSeq p) (DASHA_PERIODS p - y)).2) :: rest),
          0 ≤ x.2 := by
        intro x hx
        rcases List.mem_cons.mp hx with rfl | hx2
        · simp only []
          linarith
        · exact hrestnn x hx2
      have hsum2 : (((q, dq - (skipElapsed (fullSeq p) (DASHA_PERIODS p - y)).2)
          :: rest).map Prod.snd).sum = y + 0 := by
        simp only [List.map_cons, List.sum_cons]
        linarith
      have h := emitProps _ t y 0 hnn2 hy hsum2 (by linarith) (by linarith)
      exact ⟨h.1, h.2.1, h.2.2.1, h.2.2.2.1, h.2.2.2.2.1, h.2.2.2.2.2.1,
        fun _ => h.2.2.2.2.2.2 (by simp)⟩
    · -- residual within tolerance: emit the untouched suffix
      have hfin : antFinish ((q, dq) :: rest)
          (skipElapsed (fullSeq p) (DASHA_PERIODS p - y)).2 t (t + y * 365.25)
          = emitFull ((q, dq) :: rest) t (t + y * 365.25) := by
        simp only [antFinish, if_neg hr]
      rw [hfin] at hw
      rw [hw]
      have hnn2 : ∀ x ∈ ((q, dq) :: rest), 0 ≤ x.2 := by
        intro x hx
        rcases List.mem_cons.mp hx with rfl | hx2
        · exact hdq0
        · exact hrestnn x hx2
      have hsum2 : (((q, dq) :: rest).map Prod.snd).sum
          = y + (skipElapsed (fullSeq p) (DASHA_PERIODS p - y)).2 := by
        simp only [List.map_cons, List.sum_cons]
        linarith
      have h := emitProps _ t y _ hnn2 hy hsum2 hrlow (not_lt.mp hr)
      exact ⟨h.1, h.2.1, h.2.2.1, h.2.2.2.1, h.2.2.2.2.1, h.2.2.2.2.2.1,
        fun _ => h.2.2.2.2.2.2 (by simp)⟩

end Astrova

namespace Astrova

open Planet

/-- Sum of the `years` fields of a list of Mahadasha segments. -/
def segYearsSum (l : List DashaSegment) : ℚ := (l.map DashaSegment.years).sum

theorem NAK_LEN_pos : 0 < NAK_LEN := by norm_num [NAK_LEN]

theorem buildFullSegments_mem (n : ℕ) :
    ∀ idx : ℕ, ∀ t : ℚ, ∀ seg ∈ buildFullSegments n idx t,
      seg.years = DASHA_PERIODS seg.planet
        ∧ seg.endDay = seg.startDay + seg.years * 365.25 := by
  induction n with
  | zero => intro idx t seg hseg; simp [buildFullSegments] at hseg
  | succ n ih =>
    intro idx t seg hseg
    simp only [buildFullSegments, List.mem_cons] at hseg
    rcases hseg with rfl | hseg
    · exact ⟨rfl, rfl⟩
    · exact ih (idx + 1) _ seg hseg

/-- Every Mahadasha segment the generator emits has a positive duration of
at most the lord's full years, and its recorded end is its start plus its
duration. -/
theorem periods_segment_facts (m : ℚ) :
    ∀ seg ∈ (calculate_vimshottari_dasha m).periods,
      0 < seg.years ∧ seg.years ≤ DASHA_PERIODS seg.planet
        ∧ seg.endDay = seg.startDay + seg.years * 365.25 := by
  intro seg hseg
  simp only [calculate_vimshottari_dasha, List.mem_cons] at hseg
  rcases hseg with rfl | hseg
  · have hF := DASHA_PERIODS_pos (nakshatra_lords.getD (nakshatraIndex m).toNat Ketu)
    have hp0 : 0 ≤ pymod m NAK_LEN / NAK_LEN :=
      div_nonneg (pymod_nonneg m NAK_LEN NAK_LEN_pos) NAK_LEN_pos.le
    have hp1 : pymod m NAK_LEN / NAK_LEN < 1 :=
      (div_lt_one NAK_LEN_pos).mpr (pymod_lt m NAK_LEN NAK_LEN_pos)
    refine ⟨by nlinarith, by nlinarith, by ring⟩
  · obtain ⟨h1, h2⟩ := buildFullSegments_mem 8 _ _ seg hseg
    exact ⟨h1 ▸ DASHA_PERIODS_pos seg.planet, le_of_eq h1, h2⟩

/-- Round-half-to-even of a rational, the tie-breaking rule of Python's
`round`. -/
def roundHalfEven (y : ℚ) : ℤ :=
  if Int.fract y < 1 / 2 then ⌊y⌋
  else if 1 / 2 < Int.fract y then ⌊y⌋ + 1
  else if 2 ∣ ⌊y⌋ then ⌊y⌋ else ⌊y⌋ + 1

/-- Python's `round(x, 6)` (kundali_maker.py:1799,1827): round to the
nearest multiple of 1e-6, ties to even. -/
def pyround6 (x : ℚ) : ℚ := (roundHalfEven (x * 10 ^ 6) : ℚ) / 10 ^ 6

theorem roundHalfEven_close (y : ℚ) : |(roundHalfEven y : ℚ) - y| ≤ 1 / 2 := by
  unfold roundHalfEven
  have hf0 := Int.fract_nonneg y
  have hf1 := (Int.fract_lt_one y).le
  simp only [Int.fract] at hf0 hf1
  split_ifs with h1 h2 h3 <;>
    · simp only [Int.fract] at *
      rw [abs_le]
      push_cast
      constructor <;> linarith

theorem roundHalfEven_nonneg (y : ℚ) (h : 0 ≤ y) : 0 ≤ roundHalfEven y := by
  unfold roundHalfEven
  have h0 : 0 ≤ ⌊y⌋ := Int.floor_nonneg.mpr h
  split_ifs <;> omega

theorem roundHalfEven_le (y : ℚ) (N : ℤ) (h : y ≤ N) : roundHalfEven y ≤ N := by
  have hfl : ⌊y⌋ ≤ N := by
    have := Int.floor_le_floor h
    rwa [Int.floor_intCast] at this
  have hplus : ¬Int.fract y < 1 / 2 → ⌊y⌋ + 1 ≤ N := by
    intro hge
    rcases lt_or_eq_of_le hfl with hlt | heq
    · omega
    · exfalso
      have hyN : y = (N : ℚ) := by
        refine le_antisymm h ?_
        rw [← heq]
        exact_mod_cast Int.floor_le y
      rw [hyN, Int.fract_intCast] at hge
      norm_num at hge
  unfold roundHalfEven
  split_ifs with h1 h2 h3
  · exact hfl
  · exact hplus h1
  · exact hfl
  · exact hplus h1

theorem pyround6_close (x : ℚ) : |pyround6 x - x| ≤ 1 / 2000000 := by
  unfold pyround6
  have h := roundHalfEven_close (x * 10 ^ 6)
  rw [abs_le] at h ⊢
  constructor <;>
    · obtain ⟨ha, hb⟩ := h
      nlinarith

theorem pyround6_nonneg (x : ℚ) (h : 0 ≤ x) : 0 ≤ pyround6 x := by
  unfold pyround6
  have hr : (0 : ℤ) ≤ roundHalfEven (x * 10 ^ 6) :=
    roundHalfEven_nonneg _ (by positivity)
  have : (0 : ℚ) ≤ (roundHalfEven (x * 10 ^ 6) : ℚ) := by exact_mod_cast hr
  positivity

theorem pyround6_le_intCast (x : ℚ) (N : ℤ) (h : x ≤ N) : pyround6 x ≤ N := by
  unfold pyround6
  have hle : roundHalfEven (x * 10 ^ 6) ≤ N * 10 ^ 6 := by
    apply roundHalfEven_le
    push_cast
    nlinarith
  have hq : ((roundHalfEven (x * 10 ^ 6) : ℚ)) ≤ ((N * 10 ^ 6 : ℤ) : ℚ) := by
    exact_mod_cast hle
  have h6 : (0 : ℚ) < 10 ^ 6 := by norm_num
  rw [div_le_iff h6]
  calc ((roundHalfEven (x * 10 ^ 6) : ℚ)) ≤ ((N * 10 ^ 6 : ℤ) : ℚ) := hq
    _ = (N : ℚ) * 10 ^ 6 := by push_cast; ring

theorem DASHA_PERIODS_isInt (p : Planet) : ∃ N : ℤ, (N : ℚ) = DASHA_PERIODS p := by
  cases p with
  | Sun => exact ⟨6, by norm_num [DASHA_PERIODS]⟩
  | Moon => exact ⟨10, by norm_num [DASHA_PERIODS]⟩
  | Mars => exact ⟨7, by norm_num [DASHA_PERIODS]⟩
  | Mercury => exact ⟨17, by norm_num [DASHA_PERIODS]⟩
  | Jupiter => exact ⟨16, by norm_num [DASHA_PERIODS]⟩
  | Venus => exact ⟨20, by norm_num [DASHA_PERIODS]⟩
  | Saturn => exact ⟨19, by norm_num [DASHA_PERIODS]⟩
  | Rahu => exact ⟨18, by norm_num [DASHA_PERIODS]⟩
  | Ketu => exact ⟨7, by norm_num [DASHA_PERIODS]⟩

/-- A skip budget of the lord's full years consumes the entire 9-entry
sequence exactly. -/
theorem skipElapsed_full (p : Planet) :
    skipElapsed (fullSeq p) (DASHA_PERIODS p) = ([], 0) := by
  have h9 : List.range 9 = [0, 1, 2, 3, 4, 5, 6, 7, 8] := rfl
  cases p <;>
    norm_num [fullSeq, h9, skipElapsed, SKIP_EPS, VIMSHOTTARI_CYCLE,
      DASHA_PERIODS, dashaOrderIndex, dashaOrderGet, DASHA_ORDER, List.getD]

/-- A zero-duration segment yields no Antardashas: the skip loop consumes
the full sequence. -/
theorem calculate_antardashas_zero (p : Planet) (t : ℚ) :
    calculate_antardashas p t 0 = [] := by
  have hw : calculate_antardashas p t 0
      = antFinish (skipElapsed (fullSeq p) (max 0 (DASHA_PERIODS p - 0))).1
          (skipElapsed (fullSeq p) (max 0 (DASHA_PERIODS p - 0))).2 t
          (t + 0 * 365.25) := rfl
  rw [hw]
  have hm : max 0 (DASHA_PERIODS p - 0) = DASHA_PERIODS p := by
    rw [sub_zero]
    exact max_eq_right (DASHA_PERIODS_pos p).le
  rw [hm, skipElapsed_full p]
  rfl

/-- The per-segment Antardasha computation exactly as the pipeline performs
it (kundali_maker.py:2127-2137): `calculate_antardashas` is called with the
segment's exact start instant but with the duration read back from the
serialized dict, `float(period["years"])`, which was stored rounded to 6
decimals (py:1799 for the shortened first segment, py:1827 for the full
ones, where rounding an integer is the identity). -/
def antardashasFor (seg : DashaSegment) : List Antardasha :=
  calculate_antardashas seg.planet seg.startDay (pyround6 seg.years)

/-- Amended C1 invariant for one generated Mahadasha segment, for the
Antardashas the pipeline generates from the 6-decimal-rounded duration:
they chain contiguously from the segment start with no gaps or overlaps;
every sub-period ends no later than 1e-6 years past the recorded segment
end (the rounding can shift the emission window by up to 5e-7 years either
way); their durations sum to the segment's exact duration within 1e-6
years; the last end lies within 1e-6 years of the recorded segment end on
either side; and at least one Antardasha is emitted whenever the rounded
duration exceeds the 1e-12-year skip tolerance. -/
def AntardashaInvariant (seg : DashaSegment) : Prop :=
  chainedFrom seg.startDay (antardashasFor seg) ∧
  (∀ a ∈ antardashasFor seg,
    a.startDay ≤ a.endDay ∧ a.endDay ≤ seg.endDay + (1 / 1000000) * 365.25) ∧
  seg.years - 1 / 1000000 ≤ antYearsSum (antardashasFor seg) ∧
  antYearsSum (antardashasFor seg) ≤ seg.years + 1 / 1000000 ∧
  seg.endDay - (1 / 1000000) * 365.25 ≤ lastEnd (antardashasFor seg) seg.startDay ∧
  lastEnd (antardashasFor seg) seg.startDay ≤ seg.endDay + (1 / 1000000) * 365.25 ∧
  (SKIP_EPS < pyround6 seg.years → antardashasFor seg ≠ [])

/-- C1 (amended): for every Mahadasha segment produced by the Dasha
generator, the Antardashas the pipeline generates from the 6-decimal
rounded segment duration are contiguous from the segment start with no
gaps or overlaps, stay within 1e-6 years of the recorded segment window,
their durations sum to the segment's duration within 1e-6 years, and the
last one ends within 1e-6 years of the recorded segment end — on either
side of it, since the consumed rounding shifts the emission window by up
to 5e-7 years and the skip tolerance by a further 1e-12. -/
theorem claim_C1_amended (m : ℚ) (h0 : 0 ≤ m) (h1 : m < 360) :
    ∀ seg ∈ (calculate_vimshottari_dasha m).periods, AntardashaInvariant seg := by
  intro seg hseg
  obtain ⟨hy, hyF, hend⟩ := periods_segment_facts m seg hseg
  have hclose := pyround6_close seg.years
  rw [abs_le] at hclose
  obtain ⟨hcl, hch⟩ := hclose
  have h6nonneg : 0 ≤ pyround6 seg.years := pyround6_nonneg seg.years hy.le
  obtain ⟨N, hN⟩ := DASHA_PERIODS_isInt seg.planet
  have h6le : pyround6 seg.years ≤ DASHA_PERIODS seg.planet := by
    rw [← hN]
    exact pyround6_le_intCast seg.years N (by rw [hN]; exact hyF)
  have hepsle : SKIP_EPS ≤ 1 / 2000000 := by norm_num [SKIP_EPS]
  rcases eq_or_lt_of_le h6nonneg with h0eq | hpos
  · -- the rounded duration is zero, so the segment is at most 5e-7 years
    -- long and no Antardashas are emitted
    have hads : antardashasFor seg = [] := by
      unfold antardashasFor
      rw [← h0eq]
      exact calculate_antardashas_zero seg.planet seg.startDay
    have hysm : seg.years ≤ 1 / 2000000 := by
      rw [← h0eq] at hcl
      linarith
    unfold AntardashaInvariant
    rw [hads]
    refine ⟨trivial, ?_, ?_, ?_, ?_, ?_, ?_⟩
    · intro a ha
      simp at ha
    · simp only [antYearsSum, List.map_nil, List.sum_nil]
      linarith
    · simp only [antYearsSum, List.map_nil, List.sum_nil]
      linarith [hy.le]
    · rw [lastEnd_nil, hend]
      nlinarith
    · rw [lastEnd_nil, hend]
      nlinarith [hy.le]
    · intro hlt
      rw [← h0eq] at hlt
      exact absurd hlt (by norm_num [SKIP_EPS])
  · have h := calculate_antardashas_spec seg.planet seg.startDay
      (pyround6 seg.years) hpos h6le
    obtain ⟨hchain, hbounds, hsl, hsh, hll, hlh, hne⟩ := h
    unfold AntardashaInvariant antardashasFor
    refine ⟨hchain, ?_, ?_, ?_, ?_, ?_, hne⟩
    · intro a ha
      obtain ⟨hb1, hb2⟩ := hbounds a ha
      refine ⟨hb1, ?_⟩
      rw [hend]
      nlinarith
    · linarith
    · linarith
    · rw [hend]
      nlinarith
    · rw [hend]
      nlinarith

end Astrova

namespace Astrova

open Planet

/-- The head of a nonempty list with a default is a member of the list. -/
theorem headD_mem {α : Type} (l : List α) (d : α) (h : l ≠ []) : l.headD d ∈ l := by
  cases l with
  | nil => exact absurd rfl h
  | cons a t => simp

/-- C1 witness: the amended invariant applied to the first Mahadasha
segment of the chart with Moon longitude 45°. -/
theorem claim_C1_witness :
    (0:ℚ) ≤ 45 ∧ (45:ℚ) < 360 ∧
      AntardashaInvariant ((calculate_vimshottari_dasha 45).periods.headD dfltSegment) :=
  ⟨by norm_num, by norm_num,
    claim_C1_amended 45 (by norm_num) (by norm_num) _
      (headD_mem _ _ (by simp [calculate_vimshottari_dasha]))⟩

/-- Moon longitude 283/21° (1/7° into Bharani): the first Mahadasha's
remaining duration is 277/14 = 19.785714285714... years, whose 6-decimal
rounding 19.785714 — the value the pipeline feeds into
`calculate_antardashas` — falls 2/7e-6 years short of the exact duration,
so the emitted Antardashas end visibly before the recorded segment end. -/
def roundGapMoonLon : ℚ := 283 / 21

set_option maxHeartbeats 2000000 in
/-- C1 counterexample: for the first Mahadasha segment produced at Moon
longitude `roundGapMoonLon`, the last Antardasha generated by the pipeline
does not end at the recorded segment end (it ends about 2.86e-7 years
early, because the pipeline consumes the segment duration rounded to 6
decimals), so the claim's exact contiguity with the segment end fails as
stated. -/
theorem claim_C1_counterexample :
    (0:ℚ) ≤ roundGapMoonLon ∧ roundGapMoonLon < 360 ∧
    ((calculate_vimshottari_dasha roundGapMoonLon).periods.headD dfltSegment)
      ∈ (calculate_vimshottari_dasha roundGapMoonLon).periods ∧
    lastEnd
      (antardashasFor
        ((calculate_vimshottari_dasha roundGapMoonLon).periods.headD dfltSegment))
      ((calculate_vimshottari_dasha roundGapMoonLon).periods.headD dfltSegment).startDay
    ≠ ((calculate_vimshottari_dasha roundGapMoonLon).periods.headD dfltSegment).endDay := by
  have hhead : (calculate_vimshottari_dasha roundGapMoonLon).periods.headD dfltSegment
      = { planet := Venus, startDay := 0,
          endDay := (277 / 14) * 365.25,
          years := 277 / 14, totalYears := 20,
          yearsPassed := 3 / 14, isCurrent := true } := by
    norm_num [calculate_vimshottari_dasha, nakshatraIndex, NAK_LEN, pymod,
      nakshatra_lords, DASHA_ORDER, DASHA_PERIODS, roundGapMoonLon, List.getD]
  have hr : pyround6 (277 / 14) = 19785714 / 1000000 := by
    norm_num [pyround6, roundHalfEven, Int.fract]
  refine ⟨by norm_num [roundGapMoonLon], by norm_num [roundGapMoonLon],
    headD_mem _ _ (by simp [calculate_vimshottari_dasha]), ?_⟩
  rw [hhead]
  unfold antardashasFor
  dsimp only
  rw [hr]
  have h9 : List.range 9 = [0, 1, 2, 3, 4, 5, 6, 7, 8] := rfl
  norm_num [calculate_antardashas, fullSeq, h9, skipElapsed, antFinish, emitFull,
    SKIP_EPS, VIMSHOTTARI_CYCLE, DASHA_PERIODS, dashaOrderIndex, dashaOrderGet,
    DASHA_ORDER, List.getD, lastEnd]

/-- C2: for any Moon longitude in [0, 360), the remaining years of the
first (shortened) Mahadasha plus the full durations of the following 8
Mahadashas equal 120 minus the years elapsed at birth (exactly, hence
within 1e-6), and the 9 fixed full-period years sum to exactly 120. -/
theorem claim_C2 (m : ℚ) (h0 : 0 ≤ m) (h1 : m < 360) :
    ((calculate_vimshottari_dasha m).periods.headD dfltSegment).years
        + segYearsSum (calculate_vimshottari_dasha m).periods.tail
      = 120 - ((calculate_vimshottari_dasha m).periods.headD dfltSegment).yearsPassed ∧
    ((DASHA_ORDER.map DASHA_PERIODS).sum : ℚ) = 120 := by
  constructor
  · simp only [calculate_vimshottari_dasha, List.headD_cons, List.tail_cons]
    generalize nakshatra_lords.getD (nakshatraIndex m).toNat Ketu = lord
    have htail : ∀ t : ℚ, segYearsSum (buildFullSegments 8 (dashaOrderIndex lord + 1) t)
        = 120 - DASHA_PERIODS lord := by
      intro t
      cases lord <;>
        norm_num [buildFullSegments, segYearsSum, dashaOrderIndex, dashaOrderGet,
          DASHA_ORDER, DASHA_PERIODS, List.getD]
    rw [htail]
    ring
  · norm_num [DASHA_ORDER, DASHA_PERIODS]

/-- C2 witness: the budget identity evaluated at Moon longitude 45°. -/
theorem claim_C2_witness :
    (0:ℚ) ≤ 45 ∧ (45:ℚ) < 360 ∧
    (((calculate_vimshottari_dasha 45).periods.headD dfltSegment).years
        + segYearsSum (calculate_vimshottari_dasha 45).periods.tail
      = 120 - ((calculate_vimshottari_dasha 45).periods.headD dfltSegment).yearsPassed ∧
    ((DASHA_ORDER.map DASHA_PERIODS).sum : ℚ) = 120) :=
  ⟨by norm_num, by norm_num, claim_C2 45 (by norm_num) (by norm_num)⟩

/-- C3 counterexample: at Moon longitude 45.0° the generator does yield
nakshatra index 3 (Rohini) and starting lord Moon, but 45° lies 3/8 of the
way through Rohini, so the elapsed fraction is 3/8 (not 0) and the first
Mahadasha duration is 6.25 years (not 10.0). -/
theorem claim_C3_counterexample :
    nakshatraIndex 45 = 3 ∧
    (calculate_vimshottari_dasha 45).currentLord = Moon ∧
    pymod 45 NAK_LEN / NAK_LEN = 3 / 8 ∧
    ((calculate_vimshottari_dasha 45).periods.headD dfltSegment).years = 25 / 4 ∧
    ((3 : ℚ) / 8 ≠ 0) ∧ ((25 : ℚ) / 4 ≠ 10) := by
  refine ⟨by norm_num [nakshatraIndex, NAK_LEN], ?_, by norm_num [pymod, NAK_LEN], ?_,
    by norm_num, by norm_num⟩
  · norm_num [calculate_vimshottari_dasha, nakshatraIndex, NAK_LEN, pymod,
      nakshatra_lords, DASHA_ORDER, DASHA_PERIODS]
    simp [List.getD]
  · norm_num [calculate_vimshottari_dasha, nakshatraIndex, NAK_LEN, pymod,
      nakshatra_lords, DASHA_ORDER, DASHA_PERIODS, dashaOrderIndex, dashaOrderGet]
    simp [List.getD]
    norm_num

/-- C3 (amended): Moon longitude 45.0° yields nakshatra index 3 (0-based,
Rohini), starting Dasha lord Moon per the 9-lord repeating pattern, an
elapsed fraction of 3/8 within the nakshatra (elapsed years 3.75 of the
10-year Moon period), and a first Mahadasha duration of exactly 6.25
years. -/
theorem claim_C3_amended :
    nakshatraIndex 45 = 3 ∧
    (calculate_vimshottari_dasha 45).currentLord = Moon ∧
    pymod 45 NAK_LEN / NAK_LEN = 3 / 8 ∧
    ((calculate_vimshottari_dasha 45).periods.headD dfltSegment).totalYears = 10 ∧
    ((calculate_vimshottari_dasha 45).periods.headD dfltSegment).yearsPassed = 15 / 4 ∧
    ((calculate_vimshottari_dasha 45).periods.headD dfltSegment).years = 25 / 4 := by
  refine ⟨by norm_num [nakshatraIndex, NAK_LEN], ?_, by norm_num [pymod, NAK_LEN],
    ?_, ?_, ?_⟩ <;>
    (norm_num [calculate_vimshottari_dasha, nakshatraIndex, NAK_LEN, pymod,
       nakshatra_lords, DASHA_ORDER, DASHA_PERIODS, dashaOrderIndex, dashaOrderGet]
     <;> simp [List.getD]
     <;> norm_num)

end Astrova

namespace Astrova

open Planet

/-! ### Shad Bala: Uccha Bala (kundali_maker.py:996-1006, 1259-1268) -/

/-- `DEBILITATION_DEG` (kundali_maker.py:998): deep-debilitation (Neecha)
longitudes; the nodes have none. -/
def DEBILITATION_DEG : Planet → Option ℚ
  | Sun => some 190
  | Moon => some 213
  | Mars => some 118
  | Mercury => some 345
  | Jupiter => some 275
  | Venus => some 177
  | Saturn => some 20
  | Rahu => none
  | Ketu => none

/-- `uccha_bala` (kundali_maker.py:1259): distance from the debilitation
point divided by 3 (max 60 at exaltation), 30 for the nodes. -/
def uccha_bala (p : Planet) (lon : ℚ) : ℚ :=
  match DEBILITATION_DEG p with
  | none => 30
  | some neecha => angular_distance lon neecha / 3

/-- C4: for every planet with a debilitation point, Uccha Bala is
`angular_distance(longitude, debilitation)/3`, lies in [0, 60], is exactly
60 at 180° from the debilitation point and exactly 0 at the debilitation
point; the nodes get a fixed 30. -/
theorem angular_distance_self (x : ℚ) : angular_distance x x = 0 := by
  simp only [angular_distance, sub_self, abs_zero]
  rw [min_eq_left (by norm_num)]

theorem angular_distance_add_180 (x : ℚ) : angular_distance (x + 180) x = 180 := by
  have hsplit : (x + 180) / 360 = x / 360 + 1 / 2 := by ring
  have h1 : ⌊x / 360⌋ ≤ ⌊(x + 180) / 360⌋ := Int.floor_le_floor (by linarith)
  have h2 : ⌊(x + 180) / 360⌋ ≤ ⌊x / 360⌋ + 1 := by
    rw [hsplit]
    calc ⌊x / 360 + 1 / 2⌋ ≤ ⌊x / 360 + 1⌋ := Int.floor_le_floor (by linarith)
      _ = ⌊x / 360⌋ + 1 := by
          rw [show (x / 360 + 1 : ℚ) = x / 360 + (1 : ℤ) by push_cast; ring]
          exact Int.floor_add_int _ _
  have hd : normalize (x + 180) - normalize x
      = 180 - 360 * ((⌊(x + 180) / 360⌋ : ℚ) - (⌊x / 360⌋ : ℚ)) := by
    rw [normalize_eq_pymod, normalize_eq_pymod]
    simp only [pymod]
    ring
  have hcases : ⌊(x + 180) / 360⌋ - ⌊x / 360⌋ = 0 ∨ ⌊(x + 180) / 360⌋ - ⌊x / 360⌋ = 1 := by
    omega
  simp only [angular_distance]
  rcases hcases with h | h
  · have : ((⌊(x + 180) / 360⌋ : ℚ) - (⌊x / 360⌋ : ℚ)) = 0 := by
      push_cast [show ⌊(x + 180) / 360⌋ = ⌊x / 360⌋ by omega]
      ring
    rw [hd, this]
    norm_num
  · have : ((⌊(x + 180) / 360⌋ : ℚ) - (⌊x / 360⌋ : ℚ)) = 1 := by
      push_cast [show ⌊(x + 180) / 360⌋ = ⌊x / 360⌋ + 1 by omega]
      ring
    rw [hd, this]
    norm_num

theorem uccha_some_props (p : Planet) (neecha : ℚ)
    (h : DEBILITATION_DEG p = some neecha) (lon : ℚ) :
    uccha_bala p lon = angular_distance lon neecha / 3 ∧
    0 ≤ uccha_bala p lon ∧ uccha_bala p lon ≤ 60 ∧
    (angular_distance lon neecha = 180 → uccha_bala p lon = 60) ∧
    (angular_distance lon neecha = 0 → uccha_bala p lon = 0) := by
  have hval : uccha_bala p lon = angular_distance lon neecha / 3 := by
    simp only [uccha_bala, h]
  have h0 := angular_distance_nonneg lon neecha
  have h180 := angular_distance_le_180 lon neecha
  refine ⟨hval, by rw [hval]; linarith, by rw [hval]; linarith, ?_, ?_⟩
  · intro he; rw [hval, he]; norm_num
  · intro he; rw [hval, he]; norm_num

/-- C4: for every planet with a defined deep-debilitation point, Uccha Bala
equals `angular_distance(longitude, debilitation_point)/3`, lies in [0, 60],
is exactly 60.0 when the planet is 180° from its debilitation point (its
exaltation point) and exactly 0.0 at its debilitation point; planets
without such a point (the nodes) receive a fixed 30. -/
theorem claim_C4 (p : Planet) (lon : ℚ) :
    (∀ neecha : ℚ, DEBILITATION_DEG p = some neecha →
      uccha_bala p lon = angular_distance lon neecha / 3 ∧
      0 ≤ uccha_bala p lon ∧ uccha_bala p lon ≤ 60 ∧
      (angular_distance lon neecha = 180 → uccha_bala p lon = 60) ∧
      (angular_distance lon neecha = 0 → uccha_bala p lon = 0) ∧
      uccha_bala p (neecha + 180) = 60 ∧
      uccha_bala p neecha = 0) ∧
    (DEBILITATION_DEG p = none → uccha_bala p lon = 30) := by
  constructor
  · intro neecha hn
    have hs := uccha_some_props p neecha hn lon
    have hexalt : uccha_bala p (neecha + 180) = 60 := by
      rw [(uccha_some_props p neecha hn (neecha + 180)).1, angular_distance_add_180]
      norm_num
    have hdeb : uccha_bala p neecha = 0 := by
      rw [(uccha_some_props p neecha hn neecha).1, angular_distance_self]
      norm_num
    exact ⟨hs.1, hs.2.1, hs.2.2.1, hs.2.2.2.1, hs.2.2.2.2, hexalt, hdeb⟩
  · intro hn
    simp only [uccha_bala, hn]

/-- C4 witness: the Sun at 180° from its debilitation point scores exactly
60, at its debilitation point exactly 0, and Rahu gets the fixed 30. -/
theorem claim_C4_witness :
    uccha_bala Sun (190 + 180) = 60 ∧ uccha_bala Sun 190 = 0 ∧
      uccha_bala Rahu 123 = 30 :=
  ⟨((claim_C4 Sun 0).1 190 rfl).2.2.2.2.2.1,
   ((claim_C4 Sun 0).1 190 rfl).2.2.2.2.2.2,
   (claim_C4 Rahu 123).2 rfl⟩

end Astrova

namespace Astrova

open Planet

/-! ### Aspect functions (kundali_maker.py:748-762 and 1638-1667) -/

/-- `get_aspect_value` (kundali_maker.py:748), the partial-aspect function
of the Bhava Bala engine: exact bands only, no interpolation. -/
def get_aspect_value (angle : ℚ) : ℚ :=
  let a0 := |angle|
  let a := if a0 > 180 then 360 - a0 else a0
  if 175 ≤ a ∧ a ≤ 185 then 60
  else if 115 ≤ a ∧ a ≤ 125 then 30
  else if 85 ≤ a ∧ a ≤ 95 then 45
  else if 55 ≤ a ∧ a ≤ 65 then 15
  else 0

/-- `get_aspect_strength` (kundali_maker.py:1638), the partial-aspect
function of the Shad Bala Drik Bala: same bands, plus linear interpolation
between them. -/
def get_aspect_strength (angle : ℚ) : ℚ :=
  let a0 := |angle|
  let a := if a0 > 180 then 360 - a0 else a0
  if 175 ≤ a ∧ a ≤ 185 then 60
  else if 115 ≤ a ∧ a ≤ 125 then 30
  else if 85 ≤ a ∧ a ≤ 95 then 45
  else if 55 ≤ a ∧ a ≤ 65 then 15
  else if 65 < a ∧ a < 85 then 15 + (a - 65) * (45 - 15) / 20
  else if 95 < a ∧ a < 115 then 45 - (a - 95) * (45 - 30) / 20
  else if 125 < a ∧ a < 175 then 30 + (a - 125) * (60 - 30) / 50
  else 0

/-- C5 counterexample: at a separation of 100° the Bhava Bala aspect
function returns 0 while the Shad Bala aspect function returns 41.25, so
the two are not the same function of angular separation. -/
theorem claim_C5_counterexample :
    get_aspect_value 100 = 0 ∧ get_aspect_strength 100 = 165 / 4 ∧
      get_aspect_value 100 ≠ get_aspect_strength 100 := by
  refine ⟨by norm_num [get_aspect_value], by norm_num [get_aspect_strength], ?_⟩
  norm_num [get_aspect_value, get_aspect_strength]

/-- C5 (amended): the two partial-aspect functions agree everywhere except
when the folded separation lies strictly inside an interpolation gap
(65°-85°, 95°-115° or 125°-175°), where the Bhava Bala function returns 0
while the Shad Bala function returns a strictly positive interpolated
value. -/
theorem claim_C5_amended (angle : ℚ) :
    get_aspect_value angle = get_aspect_strength angle ∨
    (get_aspect_value angle = 0 ∧ 0 < get_aspect_strength angle ∧
      ((65 < (if |angle| > 180 then 360 - |angle| else |angle|) ∧
          (if |angle| > 180 then 360 - |angle| else |angle|) < 85) ∨
       (95 < (if |angle| > 180 then 360 - |angle| else |angle|) ∧
          (if |angle| > 180 then 360 - |angle| else |angle|) < 115) ∨
       (125 < (if |angle| > 180 then 360 - |angle| else |angle|) ∧
          (if |angle| > 180 then 360 - |angle| else |angle|) < 175))) := by
  simp only [get_aspect_value, get_aspect_strength]
  set a := if |angle| > 180 then 360 - |angle| else |angle| with ha
  by_cases h1 : 175 ≤ a ∧ a ≤ 185
  · left; rw [if_pos h1, if_pos h1]
  · rw [if_neg h1, if_neg h1]
    by_cases h2 : 115 ≤ a ∧ a ≤ 125
    · left; rw [if_pos h2, if_pos h2]
    · rw [if_neg h2, if_neg h2]
      by_cases h3 : 85 ≤ a ∧ a ≤ 95
      · left; rw [if_pos h3, if_pos h3]
      · rw [if_neg h3, if_neg h3]
        by_cases h4 : 55 ≤ a ∧ a ≤ 65
        · left; rw [if_pos h4, if_pos h4]
        · rw [if_neg h4, if_neg h4]
          by_cases h5 : 65 < a ∧ a < 85
          · right
            rw [if_pos h5]
            exact ⟨rfl, by nlinarith [h5.1, h5.2], Or.inl h5⟩
          · rw [if_neg h5]
            by_cases h6 : 95 < a ∧ a < 115
            · right
              rw [if_pos h6]
              exact ⟨rfl, by nlinarith [h6.1, h6.2], Or.inr (Or.inl h6)⟩
            · rw [if_neg h6]
              by_cases h7 : 125 < a ∧ a < 175
              · right
                rw [if_pos h7]
                exact ⟨rfl, by nlinarith [h7.1, h7.2], Or.inr (Or.inr h7)⟩
              · left; rw [if_neg h7]

end Astrova

namespace Astrova

open Planet

/-! ### Chesta Bala (kundali_maker.py:1093-1102, 1600-1628) -/

/-- `AVERAGE_SPEED` (kundali_maker.py:1094): mean daily motion in degrees;
only the five true planets are listed. -/
def AVERAGE_SPEED : Planet → Option ℚ
  | Sun => some 0.9856
  | Moon => some 13.1764
  | Mars => some 0.5240
  | Mercury => some 1.3833
  | Jupiter => some 0.0831
  | Venus => some 1.2000
  | Saturn => some 0.0335
  | Rahu => none
  | Ketu => none

/-- `chesta_bala` (kundali_maker.py:1600): 0 for Sun/Moon/nodes, 60 when
retrograde, otherwise a taper of the speed-to-average-speed quotient
(`AVERAGE_SPEED.get(name, 1.0)` becomes `Option.getD _ 1`). -/
def chesta_bala (p : Planet) (speed : ℚ) (isRetrograde : Bool) : ℚ :=
  if p = Sun ∨ p = Moon ∨ p = Rahu ∨ p = Ketu then 0
  else
    let avgSpeed := (AVERAGE_SPEED p).getD 1
    if avgSpeed = 0 then 30
    else
      let speedRel := |speed| / avgSpeed
      if isRetrograde then 60
      else if speedRel < 0.5 then 45 + (0.5 - speedRel) * 30
      else if speedRel < 1 then 30 + (1 - speedRel) * 30
      else max 0 (30 - (speedRel - 1) * 15)

/-- Properties of the non-retrograde Chesta taper for a planet with a
positive listed average speed: values stay in [0, 60], slower-than-average
motion scores above 30, faster-than-average below 30, and zero speed gives
the maximum 60. -/
theorem chesta_real_props (p : Planet) (s : ℚ)
    (hex : ¬(p = Sun ∨ p = Moon ∨ p = Rahu ∨ p = Ketu))
    (havg : 0 < (AVERAGE_SPEED p).getD 1) :
    0 ≤ chesta_bala p s false ∧ chesta_bala p s false ≤ 60 ∧
    (|s| < (AVERAGE_SPEED p).getD 1 → 30 < chesta_bala p s false) ∧
    ((AVERAGE_SPEED p).getD 1 < |s| → chesta_bala p s false < 30) ∧
    (s = 0 → chesta_bala p s false = 60) := by
  have hfin : chesta_bala p s false
      = (if |s| / (AVERAGE_SPEED p).getD 1 < 0.5 then
          45 + (0.5 - |s| / (AVERAGE_SPEED p).getD 1) * 30
        else if |s| / (AVERAGE_SPEED p).getD 1 < 1 then
          30 + (1 - |s| / (AVERAGE_SPEED p).getD 1) * 30
        else max 0 (30 - (|s| / (AVERAGE_SPEED p).getD 1 - 1) * 15)) := by
    simp only [chesta_bala, if_neg hex, if_neg havg.ne.symm, Bool.false_eq_true,
      if_false]
  set avg := (AVERAGE_SPEED p).getD 1 with havgdef
  set rel := |s| / avg with hreldef
  have hrel0 : 0 ≤ rel := div_nonneg (abs_nonneg s) havg.le
  have hslow : |s| < avg ↔ rel < 1 := (div_lt_one havg).symm
  have hfast : avg < |s| ↔ 1 < rel := (one_lt_div havg).symm
  have hzero : s = 0 → rel = 0 := by
    intro h; rw [hreldef, h]; simp
  rw [hfin]
  split_ifs with h1 h2
  · refine ⟨by nlinarith, by nlinarith, fun _ => by nlinarith, ?_, ?_⟩
    · intro hf
      exfalso
      have := hfast.mp hf
      norm_num at h1
      linarith
    · intro h0
      have := hzero h0
      rw [this]
      norm_num
  · refine ⟨by nlinarith, by nlinarith, fun _ => by nlinarith, ?_, ?_⟩
    · intro hf
      exfalso
      have := hfast.mp hf
      linarith
    · intro h0
      exfalso
      have := hzero h0
      norm_num at h1
      linarith
  · have hge : 1 ≤ rel := not_lt.mp h2
    refine ⟨le_max_left _ _, ?_, ?_, ?_, ?_⟩
    · apply max_le (by norm_num)
      nlinarith
    · intro hs
      exfalso
      exact absurd (hslow.mp hs) h2
    · intro hf
      have := hfast.mp hf
      apply max_lt (by norm_num)
      nlinarith
    · intro h0
      exfalso
      have := hzero h0
      norm_num at h1
      linarith

/-- C8 counterexample: no planet ever receives a Chesta Bala above 60, so
the claimed slow-motion bonus of "up to 75" is unattainable; the slowest
possible non-retrograde motion (speed 0) yields exactly 60. -/
theorem claim_C8_counterexample :
    chesta_bala Jupiter 0 false = 60 ∧
      ¬∃ (p : Planet) (s : ℚ) (r : Bool), 60 < chesta_bala p s r := by
  constructor
  · exact (chesta_real_props Jupiter 0 (by simp) (by norm_num [AVERAGE_SPEED])).2.2.2.2 rfl
  · rintro ⟨p, s, r, hgt⟩
    by_cases hex : p = Sun ∨ p = Moon ∨ p = Rahu ∨ p = Ketu
    · rw [chesta_bala, if_pos hex] at hgt
      norm_num at hgt
    · have havg : 0 < (AVERAGE_SPEED p).getD 1 := by
        cases p <;> norm_num [AVERAGE_SPEED]
      cases r with
      | false => exact absurd hgt (not_lt.mpr (chesta_real_props p s hex havg).2.1)
      | true =>
        rw [chesta_bala, if_neg hex] at hgt
        simp only [if_neg havg.ne.symm, if_pos rfl] at hgt
        norm_num at hgt

end Astrova

namespace Astrova

open Planet

/-- C8 (amended): Chesta Bala is 0 for Sun, Moon, Rahu and Ketu; 60 for any
other planet that is retrograde; and otherwise a taper of the quotient of
actual speed to average speed staying within [0, 60] — slower-than-average
motion earns a bonus above 30 up to a maximum of 60 (attained at zero
speed), faster-than-average motion a penalty below 30 toward 0. -/
theorem claim_C8_amended (p : Planet) (s : ℚ) (r : Bool) :
    ((p = Sun ∨ p = Moon ∨ p = Rahu ∨ p = Ketu) → chesta_bala p s r = 0) ∧
    (¬(p = Sun ∨ p = Moon ∨ p = Rahu ∨ p = Ketu) →
      (r = true → chesta_bala p s r = 60) ∧
      (r = false →
        0 ≤ chesta_bala p s false ∧ chesta_bala p s false ≤ 60 ∧
        (|s| < (AVERAGE_SPEED p).getD 1 → 30 < chesta_bala p s false) ∧
        ((AVERAGE_SPEED p).getD 1 < |s| → chesta_bala p s false < 30) ∧
        (s = 0 → chesta_bala p s false = 60))) := by
  constructor
  · intro h
    rw [chesta_bala, if_pos h]
  · intro hex
    have havg : 0 < (AVERAGE_SPEED p).getD 1 := by
      cases p <;> norm_num [AVERAGE_SPEED]
    constructor
    · intro hr
      subst hr
      rw [chesta_bala, if_neg hex]
      simp only [if_neg havg.ne.symm, if_pos rfl, if_true]
    · intro hr
      subst hr
      exact chesta_real_props p s hex havg

/-- C8 witness: the Sun is excluded (0), a retrograde Mars scores 60, and a
stationary Mars attains the non-retrograde maximum of 60. -/
theorem claim_C8_witness :
    chesta_bala Sun 1 false = 0 ∧ chesta_bala Mars 1 true = 60 ∧
      chesta_bala Mars 0 false = 60 :=
  ⟨(claim_C8_amended Sun 1 false).1 (Or.inl rfl),
   ((claim_C8_amended Mars 1 true).2 (by simp)).1 rfl,
   (((claim_C8_amended Mars 0 false).2 (by simp)).2 rfl).2.2.2.2 rfl⟩

end Astrova

namespace Astrova

open Planet

/-! ### Bhava Bala engine (kundali_maker.py:701-957) -/

/-- `SIGN_RULERS` (kundali_maker.py:720); the argument is always a sign
index reduced mod 12, so the catch-all arm is unreachable. -/
def SIGN_RULERS : ℕ → Planet
  | 0 => Mars
  | 1 => Venus
  | 2 => Mercury
  | 3 => Moon
  | 4 => Sun
  | 5 => Mercury
  | 6 => Venus
  | 7 => Mars
  | 8 => Jupiter
  | 9 => Saturn
  | 10 => Saturn
  | 11 => Jupiter
  | _ => Mars

/-- `BENEFICS` in `calculate_bhava_bala` (kundali_maker.py:727). -/
def BENEFICS : List Planet := [Jupiter, Venus, Mercury, Moon]

/-- `MALEFICS` in `calculate_bhava_bala` (kundali_maker.py:728). -/
def MALEFICS : List Planet := [Sun, Mars, Saturn, Rahu, Ketu]

/-- Iteration order of `planets_out` restricted to the nine grahas (the
outer planets the source may carry are in neither benefic nor malefic list
and contribute nothing to any Bhava component). -/
def planetsList : List Planet :=
  [Sun, Moon, Mars, Mercury, Jupiter, Venus, Saturn, Rahu, Ketu]

/-- Chart data consumed by `calculate_bhava_bala`: Ascendant sign index,
sidereal longitudes, Shad Bala totals (`total_shashtiamsas`), and the
occupants of each sign of the rasi chart (`rasi_chart`, with the "Asc"
marker already dropped as the source does). -/
structure BhavaInput where
  lagnaSign : ℕ
  planetLon : Planet → ℚ
  shadBalaTotal : Planet → ℚ
  occupants : ℕ → List Planet

/-- `get_house_lord` (kundali_maker.py:738). -/
def get_house_lord (inp : BhavaInput) (house : ℕ) : Planet :=
  SIGN_RULERS ((inp.lagnaSign + house - 1) % 12)

/-- `get_house_midpoint` (kundali_maker.py:743). -/
def get_house_midpoint (inp : BhavaInput) (house : ℕ) : ℚ :=
  normalize (((inp.lagnaSign + house - 1) % 12 : ℕ) * 30 + 15)

/-- `bhavadhipati_bala` (kundali_maker.py:764): the house lord's Shad Bala
total mapped into [20, 60]; every lord is present in the model's total map,
so the source's 35.0 fallback for an unknown lord is unreachable. -/
def bhavadhipati_bala (inp : BhavaInput) (house : ℕ) : ℚ :=
  min 60 (max 20 (inp.shadBalaTotal (get_house_lord inp house) / 10))

/-- `bhava_digbala` (kundali_maker.py:777): angular-class base plus fixed
per-house bonuses. -/
def bhava_digbala (house : ℕ) : ℚ :=
  let base : ℚ :=
    if house = 1 ∨ house = 4 ∨ house = 7 ∨ house = 10 then 45
    else if house = 2 ∨ house = 5 ∨ house = 8 ∨ house = 11 then 30
    else 18
  if house = 1 then base + 6
  else if house = 10 then base + 5
  else if house = 9 then base + 4
  else if house = 5 ∨ house = 11 then base + 3
  else base

/-- One planet's contribution to `bhava_drishti_bala`
(kundali_maker.py:812-824). -/
def drishtiContrib (inp : BhavaInput) (mid : ℚ) (p : Planet) : ℚ :=
  let aspectValue := get_aspect_value (angular_distance (inp.planetLon p) mid)
  if aspectValue > 0 then
    if p ∈ BENEFICS then aspectValue / 4
    else if p ∈ MALEFICS then -(aspectValue / 4)
    else 0
  else 0

/-- `bhava_drishti_bala` (kundali_maker.py:803): signed aspect sum from all
planets except Ketu onto the house midpoint, clamped to ±60. -/
def bhava_drishti_bala (inp : BhavaInput) (house : ℕ) : ℚ :=
  let mid := get_house_midpoint inp house
  let total := ((planetsList.filter (fun p => p ≠ Ketu)).map
    (drishtiContrib inp mid)).sum
  if total > 60 then 60
  else if total < -60 then -60
  else total

/-- One occupant's contribution to `bhava_residential_strength`
(kundali_maker.py:843-862). -/
def residentialContrib (inp : BhavaInput) (mid : ℚ) (p : Planet) : ℚ :=
  let dist0 := angular_distance (inp.planetLon p) mid
  let dist := if dist0 > 15 then 30 - dist0 else dist0
  let residential := max 0 ((15 - dist) * 4)
  if p ∈ BENEFICS then residential
  else if p ∈ MALEFICS then residential * 0.5
  else 0

/-- `bhava_residential_strength` (kundali_maker.py:833): occupant
closeness-to-midpoint falloff, clamped to 60. -/
def bhava_residential_strength (inp : BhavaInput) (house : ℕ) : ℚ :=
  let mid := get_house_midpoint inp house
  let houseSign := (inp.lagnaSign + house - 1) % 12
  min 60 (((inp.occupants houseSign).map (residentialContrib inp mid)).sum)

/-- One occupant's contribution to `planet_contribution`
(kundali_maker.py:875-893); note house 6 hits the Upachaya branch before
the Dusthana branch, exactly as in the source's elif chain. -/
def planetContribOne (inp : BhavaInput) (house : ℕ) (p : Planet) : ℚ :=
  let contribution := min 30 (max 0 (inp.shadBalaTotal p / 20))
  if p ∈ BENEFICS then contribution
  else if p ∈ MALEFICS then
    if house = 3 ∨ house = 6 ∨ house = 11 then contribution * 0.7
    else if house = 6 ∨ house = 8 ∨ house = 12 then -(contribution * 0.4)
    else contribution * 0.45
  else 0

/-- `planet_contribution` (kundali_maker.py:866). -/
def planet_contribution (inp : BhavaInput) (house : ℕ) : ℚ :=
  let houseSign := (inp.lagnaSign + house - 1) % 12
  ((inp.occupants houseSign).map (planetContribOne inp house)).sum

/-- Per-house result of `calculate_bhava_bala` (kundali_maker.py:897-955);
numeric fields unrounded (the source rounds to two decimals only when
serializing the response). -/
structure BhavaBalaResult where
  house : ℕ
  bhavadhipati : ℚ
  digbala : ℚ
  drishti : ℚ
  residential : ℚ
  planetContrib : ℚ
  totalShashtiamsas : ℚ
  totalRupas : ℚ
  isStrong : Bool
  rating : String

/-- The body of the `for house in range(1, 13)` loop of
`calculate_bhava_bala` (kundali_maker.py:897-955). -/
def calculate_bhava_bala_house (inp : BhavaInput) (house : ℕ) : BhavaBalaResult :=
  let adhipati := bhavadhipati_bala inp house
  let digbala := bhava_digbala house
  let drishti := bhava_drishti_bala inp house
  let residential := bhava_residential_strength inp house
  let planetContrib := planet_contribution inp house
  let totalShashtiamsas := adhipati + digbala + drishti + residential + planetContrib + 60
  let totalRupas := totalShashtiamsas / 60
  { house := house, bhavadhipati := adhipati, digbala := digbala,
    drishti := drishti, residential := residential, planetContrib := planetContrib,
    totalShashtiamsas := totalShashtiamsas, totalRupas := totalRupas,
    isStrong := decide (totalRupas ≥ 2.5),
    rating :=
      if totalRupas ≥ 4 then "Very Strong"
      else if totalRupas ≥ 3 then "Strong"
      else if totalRupas ≥ 2 then "Medium"
      else "Weak" }

/-- Characterization of the source's rating elif-chain. -/
theorem rating_spec (x : ℚ) :
    ((if x ≥ 4 then "Very Strong" else if x ≥ 3 then "Strong"
        else if x ≥ 2 then "Medium" else "Weak") = "Very Strong" ↔ 4 ≤ x) ∧
    ((if x ≥ 4 then "Very Strong" else if x ≥ 3 then "Strong"
        else if x ≥ 2 then "Medium" else "Weak") = "Strong" ↔ 3 ≤ x ∧ x < 4) ∧
    ((if x ≥ 4 then "Very Strong" else if x ≥ 3 then "Strong"
        else if x ≥ 2 then "Medium" else "Weak") = "Medium" ↔ 2 ≤ x ∧ x < 3) ∧
    ((if x ≥ 4 then "Very Strong" else if x ≥ 3 then "Strong"
        else if x ≥ 2 then "Medium" else "Weak") = "Weak" ↔ x < 2) := by
  split_ifs with h1 h2 h3
  · exact ⟨iff_of_true rfl h1,
      iff_of_false (by simp) (fun h => absurd h1 (not_le.mpr h.2)),
      iff_of_false (by simp) (fun h => absurd h1 (not_le.mpr (lt_of_lt_of_le h.2 (by norm_num)))),
      iff_of_false (by simp) (fun h => absurd h1 (not_le.mpr (lt_of_lt_of_le h (by norm_num))))⟩
  · exact ⟨iff_of_false (by simp) h1,
      iff_of_true rfl ⟨h2, not_le.mp h1⟩,
      iff_of_false (by simp) (fun h => absurd h2 (not_le.mpr h.2)),
      iff_of_false (by simp) (fun h => absurd h2 (not_le.mpr (lt_of_lt_of_le h (by norm_num))))⟩
  · exact ⟨iff_of_false (by simp) h1,
      iff_of_false (by simp) (fun h => absurd h.1 h2),
      iff_of_true rfl ⟨h3, not_le.mp h2⟩,
      iff_of_false (by simp) (fun h => absurd h3 (not_le.mpr h))⟩
  · exact ⟨iff_of_false (by simp) h1,
      iff_of_false (by simp) (fun h => absurd h.1 h2),
      iff_of_false (by simp) (fun h => absurd h.1 h3),
      iff_of_true rfl (not_le.mp h3)⟩

/-- C6: for every house 1-12 and every chart input, the Bhava Bala total in
virupa is the sum of the five components plus the fixed base 60, total Rupa
is total virupa divided by 60, the rating bands are Very Strong ≥ 4,
Strong ≥ 3, Medium ≥ 2, else Weak, and the `is_strong` flag holds exactly
at Rupa ≥ 2.5. -/
theorem claim_C6 (inp : BhavaInput) (house : ℕ)
    (h1 : 1 ≤ house) (h2 : house ≤ 12) :
    (calculate_bhava_bala_house inp house).totalShashtiamsas
        = (calculate_bhava_bala_house inp house).bhavadhipati
          + (calculate_bhava_bala_house inp house).digbala
          + (calculate_bhava_bala_house inp house).drishti
          + (calculate_bhava_bala_house inp house).residential
          + (calculate_bhava_bala_house inp house).planetContrib + 60 ∧
    (calculate_bhava_bala_house inp house).totalRupas
        = (calculate_bhava_bala_house inp house).totalShashtiamsas / 60 ∧
    ((calculate_bhava_bala_house inp house).rating = "Very Strong"
        ↔ 4 ≤ (calculate_bhava_bala_house inp house).totalRupas) ∧
    ((calculate_bhava_bala_house inp house).rating = "Strong"
        ↔ 3 ≤ (calculate_bhava_bala_house inp house).totalRupas
          ∧ (calculate_bhava_bala_house inp house).totalRupas < 4) ∧
    ((calculate_bhava_bala_house inp house).rating = "Medium"
        ↔ 2 ≤ (calculate_bhava_bala_house inp house).totalRupas
          ∧ (calculate_bhava_bala_house inp house).totalRupas < 3) ∧
    ((calculate_bhava_bala_house inp house).rating = "Weak"
        ↔ (calculate_bhava_bala_house inp house).totalRupas < 2) ∧
    ((calculate_bhava_bala_house inp house).isStrong = true
        ↔ (5 : ℚ) / 2 ≤ (calculate_bhava_bala_house inp house).totalRupas) := by
  have hr := rating_spec ((calculate_bhava_bala_house inp house).totalRupas)
  refine ⟨rfl, rfl, hr.1, hr.2.1, hr.2.2.1, hr.2.2.2, ?_⟩
  simp only [calculate_bhava_bala_house, decide_eq_true_eq, ge_iff_le]
  norm_num

end Astrova

namespace Astrova

open Planet

/-- A concrete chart input for the C6 witness: Aries Ascendant, all
longitudes 0, all Shad Bala totals 300 virupa, empty houses. -/
def sampleBhavaInput : BhavaInput :=
  { lagnaSign := 0, planetLon := fun _ => 0,
    shadBalaTotal := fun _ => 300, occupants := fun _ => [] }

/-- C6 witness: the aggregation identity, rating bands and `is_strong`
threshold instantiated for house 1 of the sample chart. -/
theorem claim_C6_witness :
    (1:ℕ) ≤ 1 ∧ (1:ℕ) ≤ 12 ∧
    ((calculate_bhava_bala_house sampleBhavaInput 1).totalShashtiamsas
        = (calculate_bhava_bala_house sampleBhavaInput 1).bhavadhipati
          + (calculate_bhava_bala_house sampleBhavaInput 1).digbala
          + (calculate_bhava_bala_house sampleBhavaInput 1).drishti
          + (calculate_bhava_bala_house sampleBhavaInput 1).residential
          + (calculate_bhava_bala_house sampleBhavaInput 1).planetContrib + 60 ∧
    (calculate_bhava_bala_house sampleBhavaInput 1).totalRupas
        = (calculate_bhava_bala_house sampleBhavaInput 1).totalShashtiamsas / 60 ∧
    ((calculate_bhava_bala_house sampleBhavaInput 1).rating = "Very Strong"
        ↔ 4 ≤ (calculate_bhava_bala_house sampleBhavaInput 1).totalRupas) ∧
    ((calculate_bhava_bala_house sampleBhavaInput 1).rating = "Strong"
        ↔ 3 ≤ (calculate_bhava_bala_house sampleBhavaInput 1).totalRupas
          ∧ (calculate_bhava_bala_house sampleBhavaInput 1).totalRupas < 4) ∧
    ((calculate_bhava_bala_house sampleBhavaInput 1).rating = "Medium"
        ↔ 2 ≤ (calculate_bhava_bala_house sampleBhavaInput 1).totalRupas
          ∧ (calculate_bhava_bala_house sampleBhavaInput 1).totalRupas < 3) ∧
    ((calculate_bhava_bala_house sampleBhavaInput 1).rating = "Weak"
        ↔ (calculate_bhava_bala_house sampleBhavaInput 1).totalRupas < 2) ∧
    ((calculate_bhava_bala_house sampleBhavaInput 1).isStrong = true
        ↔ (5 : ℚ) / 2 ≤ (calculate_bhava_bala_house sampleBhavaInput 1).totalRupas)) :=
  ⟨by norm_num, by norm_num, claim_C6 sampleBhavaInput 1 (by norm_num) (by norm_num)⟩

end Astrova

namespace Astrova

open Planet

/-! ### Ashtakoota compatibility scorer (src/main.py:244-620) -/

/-- `SIGNS` (kundali_maker.py:16): sign names by index, as carried in the
chart's Moon record. -/
def SIGNS : List String :=
  ["Aries", "Taurus", "Gemini", "Cancer", "Leo", "Virgo",
   "Libra", "Scorpio", "Sagittarius", "Capricorn", "Aquarius", "Pisces"]

/-- `NAKSHATRA_NAMES` (main.py:271): 0-based list; the chart carries the
1-based number. -/
def NAKSHATRA_NAMES : List String :=
  ["Ashwini", "Bharani", "Krittika", "Rohini", "Mrigashirsha", "Ardra", "Punarvasu",
   "Pushya", "Ashlesha", "Magha", "Purva Phalguni", "Uttara Phalguni", "Hasta", "Chitra",
   "Swati", "Vishakha", "Anuradha", "Jyeshtha", "Mula", "Purva Ashadha", "Uttara Ashadha",
   "Shravana", "Dhanishta", "Shatabhisha", "Purva Bhadrapada", "Uttara Bhadrapada", "Revati"]

/-- `RASHI_LORD` (main.py:244). -/
def RASHI_LORD : String → Option String
  | "Aries" => some "Mars"
  | "Taurus" => some "Venus"
  | "Gemini" => some "Mercury"
  | "Cancer" => some "Moon"
  | "Leo" => some "Sun"
  | "Virgo" => some "Mercury"
  | "Libra" => some "Venus"
  | "Scorpio" => some "Mars"
  | "Sagittarius" => some "Jupiter"
  | "Capricorn" => some "Saturn"
  | "Aquarius" => some "Saturn"
  | "Pisces" => some "Jupiter"
  | _ => none

/-- `PLANET_FRIENDS` (main.py:260): friends and enemies sets per planet
(the neutral sets are never read by the scorer). -/
def PLANET_FRIENDS : String → Option (List String × List String)
  | "Sun" => some (["Moon", "Mars", "Jupiter"], ["Venus", "Saturn"])
  | "Moon" => some (["Sun", "Mercury"], [])
  | "Mars" => some (["Sun", "Moon", "Jupiter"], ["Mercury"])
  | "Mercury" => some (["Sun", "Venus"], ["Moon"])
  | "Jupiter" => some (["Sun", "Moon", "Mars"], ["Mercury", "Venus"])
  | "Venus" => some (["Mercury", "Saturn"], ["Sun", "Moon"])
  | "Saturn" => some (["Mercury", "Venus"], ["Sun", "Moon", "Mars"])
  | _ => none

/-- `NAKSHATRA_GANA` (main.py:279). -/
def NAKSHATRA_GANA : String → Option String
  | "Ashwini" => some "Deva"
  | "Mrigashirsha" => some "Deva"
  | "Punarvasu" => some "Deva"
  | "Pushya" => some "Deva"
  | "Hasta" => some "Deva"
  | "Swati" => some "Deva"
  | "Anuradha" => some "Deva"
  | "Shravana" => some "Deva"
  | "Revati" => some "Deva"
  | "Bharani" => some "Manushya"
  | "Rohini" => some "Manushya"
  | "Ardra" => some "Manushya"
  | "Purva Phalguni" => some "Manushya"
  | "Uttara Phalguni" => some "Manushya"
  | "Chitra" => some "Manushya"
  | "Vishakha" => some "Manushya"
  | "Jyeshtha" => some "Manushya"
  | "Purva Ashadha" => some "Manushya"
  | "Uttara Ashadha" => some "Manushya"
  | "Dhanishta" => some "Manushya"
  | "Shatabhisha" => some "Manushya"
  | "Purva Bhadrapada" => some "Manushya"
  | "Uttara Bhadrapada" => some "Manushya"
  | "Krittika" => some "Rakshasa"
  | "Ashlesha" => some "Rakshasa"
  | "Magha" => some "Rakshasa"
  | "Mula" => some "Rakshasa"
  | _ => none

/-- `NAKSHATRA_NADI` (main.py:313). -/
def NAKSHATRA_NADI : String → Option String
  | "Ashwini" => some "Aadi"
  | "Ardra" => some "Aadi"
  | "Punarvasu" => some "Aadi"
  | "Uttara Phalguni" => some "Aadi"
  | "Hasta" => some "Aadi"
  | "Jyeshtha" => some "Aadi"
  | "Mula" => some "Aadi"
  | "Shravana" => some "Aadi"
  | "Shatabhisha" => some "Aadi"
  | "Bharani" => some "Madhya"
  | "Mrigashirsha" => some "Madhya"
  | "Pushya" => some "Madhya"
  | "Purva Phalguni" => some "Madhya"
  | "Chitra" => some "Madhya"
  | "Anuradha" => some "Madhya"
  | "Purva Ashadha" => some "Madhya"
  | "Dhanishta" => some "Madhya"
  | "Purva Bhadrapada" => some "Madhya"
  | "Krittika" => some "Antya"
  | "Rohini" => some "Antya"
  | "Ashlesha" => some "Antya"
  | "Magha" => some "Antya"
  | "Swati" => some "Antya"
  | "Vishakha" => some "Antya"
  | "Uttara Ashadha" => some "Antya"
  | "Uttara Bhadrapada" => some "Antya"
  | "Revati" => some "Antya"
  | _ => none

/-- `NAKSHATRA_YONI` (main.py:326). -/
def NAKSHATRA_YONI : String → Option String
  | "Ashwini" => some "Horse"
  | "Bharani" => some "Elephant"
  | "Krittika" => some "Sheep"
  | "Rohini" => some "Serpent"
  | "Mrigashirsha" => some "Serpent"
  | "Ardra" => some "Dog"
  | "Punarvasu" => some "Cat"
  | "Pushya" => some "Sheep"
  | "Ashlesha" => some "Cat"
  | "Magha" => some "Rat"
  | "Purva Phalguni" => some "Rat"
  | "Uttara Phalguni" => some "Cow"
  | "Hasta" => some "Buffalo"
  | "Chitra" => some "Tiger"
  | "Swati" => some "Buffalo"
  | "Vishakha" => some "Tiger"
  | "Anuradha" => some "Deer"
  | "Jyeshtha" => some "Deer"
  | "Mula" => some "Dog"
  | "Purva Ashadha" => some "Monkey"
  | "Uttara Ashadha" => some "Mongoose"
  | "Shravana" => some "Monkey"
  | "Dhanishta" => some "Lion"
  | "Shatabhisha" => some "Horse"
  | "Purva Bhadrapada" => some "Lion"
  | "Uttara Bhadrapada" => some "Cow"
  | "Revati" => some "Elephant"
  | _ => none

end Astrova

namespace Astrova

open Planet

/-- `_planet_relationship` (main.py:358). -/
def planetRelationship (p1 p2 : String) : String :=
  match PLANET_FRIENDS p1 with
  | none => "neutral"
  | some rel =>
    if p2 ∈ rel.1 then "friend"
    else if p2 ∈ rel.2 then "enemy"
    else "neutral"

/-- `_tara_score` (main.py:369): cyclic 1-based nakshatra count, remainder
mod 9; Python's `%` on integers is Lean's `Int.emod` for a positive
divisor. -/
def taraScoreDir (n1 n2 : ℤ) : ℚ :=
  let count := (n2 - n1) % 27 + 1
  let rem := count % 9
  if rem = 3 ∨ rem = 5 ∨ rem = 7 then 0 else 3

/-- `_bhakoot_score` (main.py:378). -/
def bhakootScoreDir (r1 r2 : ℤ) : ℚ :=
  let dist := (r2 - r1) % 12 + 1
  if dist = 2 ∨ dist = 12 ∨ dist = 5 ∨ dist = 9 ∨ dist = 6 ∨ dist = 8 then 0 else 7

/-- `_nadi_score` (main.py:387). -/
def nadiScore (nadi1 nadi2 : String) : ℚ :=
  if nadi1 = "" ∨ nadi2 = "" then 4
  else if nadi1 = nadi2 then 0 else 8

/-- `_gana_score` (main.py:393); the set comparisons `pair == {...}` of the
source become the two mirrored conjunctions (the branch is only reached
with `g1 ≠ g2`). -/
def ganaScore (g1 g2 : String) : ℚ :=
  if g1 = "" ∨ g2 = "" then 3
  else if g1 = g2 then 6
  else if (g1 = "Deva" ∧ g2 = "Manushya") ∨ (g1 = "Manushya" ∧ g2 = "Deva") then 5
  else if (g1 = "Manushya" ∧ g2 = "Rakshasa") ∨ (g1 = "Rakshasa" ∧ g2 = "Manushya") then 3
  else 1

/-- The hostile Yoni pairs of `_yoni_score` (main.py:413), both directions
listed exactly as in the source. -/
def yoniHostile (y1 y2 : String) : Prop :=
  (y1 = "Cat" ∧ y2 = "Rat") ∨ (y1 = "Rat" ∧ y2 = "Cat") ∨
  (y1 = "Dog" ∧ y2 = "Deer") ∨ (y1 = "Deer" ∧ y2 = "Dog") ∨
  (y1 = "Lion" ∧ y2 = "Elephant") ∨ (y1 = "Elephant" ∧ y2 = "Lion") ∨
  (y1 = "Serpent" ∧ y2 = "Mongoose") ∨ (y1 = "Mongoose" ∧ y2 = "Serpent") ∨
  (y1 = "Monkey" ∧ y2 = "Sheep") ∨ (y1 = "Sheep" ∧ y2 = "Monkey") ∨
  (y1 = "Tiger" ∧ y2 = "Cow") ∨ (y1 = "Cow" ∧ y2 = "Tiger")

instance (y1 y2 : String) : Decidable (yoniHostile y1 y2) := by
  unfold yoniHostile
  infer_instance

/-- `_yoni_score` (main.py:407). -/
def yoniScore (y1 y2 : String) : ℚ :=
  if y1 = "" ∨ y2 = "" then 2
  else if y1 = y2 then 4
  else if yoniHostile y1 y2 then 0 else 3

/-- `_varna_from_rashi` (main.py:426). -/
def varnaFromRashi (s : String) : String :=
  if s = "Cancer" ∨ s = "Scorpio" ∨ s = "Pisces" then "Brahmin"
  else if s = "Aries" ∨ s = "Leo" ∨ s = "Sagittarius" then "Kshatriya"
  else if s = "Taurus" ∨ s = "Virgo" ∨ s = "Capricorn" then "Vaishya"
  else "Shudra"

/-- The `order` dict of `_varna_score` (main.py:438). -/
def varnaOrder : String → Option ℕ
  | "Shudra" => some 1
  | "Vaishya" => some 2
  | "Kshatriya" => some 3
  | "Brahmin" => some 4
  | _ => none

/-- `_varna_score` (main.py:437), directional. -/
def varnaScoreDir (v1 v2 : String) : ℚ :=
  match varnaOrder v1, varnaOrder v2 with
  | some o1, some o2 => if o2 ≥ o1 then 1 else 0
  | _, _ => 0.5

/-- `_graha_maitri_score` (main.py:444). -/
def grahaMaitriScore (s1 s2 : String) : ℚ :=
  match RASHI_LORD s1, RASHI_LORD s2 with
  | some lord1, some lord2 =>
    let r12 := planetRelationship lord1 lord2
    let r21 := planetRelationship lord2 lord1
    if r12 = "friend" ∧ r21 = "friend" then 5
    else if r12 = "enemy" ∧ r21 = "enemy" then 0
    else 3
  | _, _ => 2.5

/-- `_vashya_group` (main.py:458). -/
def vashyaGroup (s : String) : String :=
  if s = "Aries" ∨ s = "Taurus" ∨ s = "Sagittarius" ∨ s = "Capricorn" then "Chatushpada"
  else if s = "Gemini" ∨ s = "Virgo" ∨ s = "Libra" ∨ s = "Aquarius" then "Manava"
  else if s = "Cancer" ∨ s = "Pisces" then "Jalachara"
  else if s = "Leo" then "Vanachara"
  else "Keeta"

/-- The 5×5 `table` of `_vashya_score` (main.py:479), with the dict-lookup
default of 1.0 as the catch-all. -/
def vashyaTable (g1 g2 : String) : ℚ :=
  if g1 = "Chatushpada" then
    if g2 = "Chatushpada" then 2
    else if g2 = "Manava" then 1
    else if g2 = "Jalachara" then 1
    else if g2 = "Vanachara" then 1.5
    else if g2 = "Keeta" then 1
    else 1
  else if g1 = "Manava" then
    if g2 = "Chatushpada" then 1
    else if g2 = "Manava" then 2
    else if g2 = "Jalachara" then 1.5
    else if g2 = "Vanachara" then 0
    else if g2 = "Keeta" then 1
    else 1
  else if g1 = "Jalachara" then
    if g2 = "Chatushpada" then 1
    else if g2 = "Manava" then 1.5
    else if g2 = "Jalachara" then 2
    else if g2 = "Vanachara" then 1
    else if g2 = "Keeta" then 1
    else 1
  else if g1 = "Vanachara" then
    if g2 = "Chatushpada" then 0
    else if g2 = "Manava" then 0
    else if g2 = "Jalachara" then 0
    else if g2 = "Vanachara" then 2
    else if g2 = "Keeta" then 0
    else 1
  else if g1 = "Keeta" then
    if g2 = "Chatushpada" then 1
    else if g2 = "Manava" then 1
    else if g2 = "Jalachara" then 1
    else if g2 = "Vanachara" then 0
    else if g2 = "Keeta" then 2
    else 1
  else 1

/-- `_vashya_score` (main.py:474), directional. -/
def vashyaScoreDir (g1 g2 : String) : ℚ :=
  if g1 = "" ∨ g2 = "" then 1
  else vashyaTable g1 g2

end Astrova

namespace Astrova

open Planet

/-- Validated Moon data the scorer consumes from each chart
(`_extract_moon_info`, main.py:489): sign index 0-11 and 0-based nakshatra
index (the chart's `moon_nakshatra` number is `nakIdx + 1`). -/
structure MoonInfo where
  signIdx : Fin 12
  nakIdx : Fin 27
deriving DecidableEq

/-- Sign name carried by the chart for a valid sign index. -/
def signName (i : Fin 12) : String := SIGNS.getD i.val ""

/-- Nakshatra name resolved from the 1-based number (main.py:496). -/
def nakName (i : Fin 27) : String := NAKSHATRA_NAMES.getD i.val ""

/-- Varna sub-score (main.py:522-526): directional score averaged both
ways. -/
def varnaKoota (s1 s2 : String) : ℚ :=
  (varnaScoreDir (varnaFromRashi s1) (varnaFromRashi s2)
    + varnaScoreDir (varnaFromRashi s2) (varnaFromRashi s1)) / 2

/-- Vashya sub-score (main.py:534-538): directional table averaged both
ways. -/
def vashyaKoota (s1 s2 : String) : ℚ :=
  (vashyaScoreDir (vashyaGroup s1) (vashyaGroup s2)
    + vashyaScoreDir (vashyaGroup s2) (vashyaGroup s1)) / 2

/-- Tara sub-score (main.py:546-551): averaged both ways, guarded by the
1-27 range check of the source. -/
def taraKoota (n1 n2 : ℤ) : ℚ :=
  if 1 ≤ n1 ∧ n1 ≤ 27 ∧ 1 ≤ n2 ∧ n2 ≤ 27 then
    (taraScoreDir n1 n2 + taraScoreDir n2 n1) / 2
  else 0

/-- Yoni sub-score (main.py:559-562). -/
def yoniKoota (nak1 nak2 : String) : ℚ :=
  yoniScore ((NAKSHATRA_YONI nak1).getD "") ((NAKSHATRA_YONI nak2).getD "")

/-- Gana sub-score (main.py:579-582). -/
def ganaKoota (nak1 nak2 : String) : ℚ :=
  ganaScore ((NAKSHATRA_GANA nak1).getD "") ((NAKSHATRA_GANA nak2).getD "")

/-- Bhakoot sub-score (main.py:590-593), guarded by the 0-11 range check. -/
def bhakootKoota (r1 r2 : ℤ) : ℚ :=
  if 0 ≤ r1 ∧ r1 ≤ 11 ∧ 0 ≤ r2 ∧ r2 ≤ 11 then bhakootScoreDir r1 r2 else 0

/-- Nadi sub-score (main.py:601-604). -/
def nadiKoota (nak1 nak2 : String) : ℚ :=
  nadiScore ((NAKSHATRA_NADI nak1).getD "") ((NAKSHATRA_NADI nak2).getD "")

/-- One entry of the response list (`MatchScoreItem`, main.py:129, without
the presentation-only description string). -/
structure ScoreItem where
  category : String
  score : ℚ
  maxScore : ℚ
deriving DecidableEq

/-- `_ashtakoota_scores` (main.py:506-620) on two validated charts: the
eight sub-scores in order, followed by the overall entry whose score is
their sum. -/
def ashtakootaScores (m1 m2 : MoonInfo) : List ScoreItem :=
  let n1 : ℤ := m1.nakIdx.val + 1
  let n2 : ℤ := m2.nakIdx.val + 1
  let s1 := signName m1.signIdx
  let s2 := signName m2.signIdx
  let r1 : ℤ := m1.signIdx.val
  let r2 : ℤ := m2.signIdx.val
  let nak1 := nakName m1.nakIdx
  let nak2 := nakName m2.nakIdx
  let varna := varnaKoota s1 s2
  let vashya := vashyaKoota s1 s2
  let tara := taraKoota n1 n2
  let yoni := yoniKoota nak1 nak2
  let maitri := grahaMaitriScore s1 s2
  let gana := ganaKoota nak1 nak2
  let bhakoot := bhakootKoota r1 r2
  let nadi := nadiKoota nak1 nak2
  let total := varna + vashya + tara + yoni + maitri + gana + bhakoot + nadi
  [{ category := "Varna", score := varna, maxScore := 1 },
   { category := "Vashya", score := vashya, maxScore := 2 },
   { category := "Tara", score := tara, maxScore := 3 },
   { category := "Yoni", score := yoni, maxScore := 4 },
   { category := "Graha Maitri", score := maitri, maxScore := 5 },
   { category := "Gana", score := gana, maxScore := 6 },
   { category := "Bhakoot", score := bhakoot, maxScore := 7 },
   { category := "Nadi", score := nadi, maxScore := 8 },
   { category := "Overall Compatibility", score := total, maxScore := 36 }]

end Astrova

namespace Astrova

open Planet

/-! ### Bounds of the Ashtakoota sub-scores -/

theorem varnaScoreDir_bounds (v1 v2 : String) :
    0 ≤ varnaScoreDir v1 v2 ∧ varnaScoreDir v1 v2 ≤ 1 := by
  unfold varnaScoreDir
  rcases varnaOrder v1 with _ | o1 <;> rcases varnaOrder v2 with _ | o2 <;>
    dsimp only <;>
    first
    | (split_ifs <;> norm_num)
    | norm_num

set_option maxHeartbeats 1600000 in
theorem vashyaTable_bounds (g1 g2 : String) :
    0 ≤ vashyaTable g1 g2 ∧ vashyaTable g1 g2 ≤ 2 := by
  unfold vashyaTable
  split_ifs <;> norm_num

theorem vashyaScoreDir_bounds (g1 g2 : String) :
    0 ≤ vashyaScoreDir g1 g2 ∧ vashyaScoreDir g1 g2 ≤ 2 := by
  unfold vashyaScoreDir
  split_ifs
  · norm_num
  · exact vashyaTable_bounds g1 g2

theorem taraScoreDir_bounds (n1 n2 : ℤ) :
    0 ≤ taraScoreDir n1 n2 ∧ taraScoreDir n1 n2 ≤ 3 := by
  simp only [taraScoreDir]
  split_ifs <;> norm_num

theorem bhakootScoreDir_bounds (r1 r2 : ℤ) :
    0 ≤ bhakootScoreDir r1 r2 ∧ bhakootScoreDir r1 r2 ≤ 7 := by
  simp only [bhakootScoreDir]
  split_ifs <;> norm_num

theorem nadiScore_bounds (x y : String) : 0 ≤ nadiScore x y ∧ nadiScore x y ≤ 8 := by
  unfold nadiScore
  split_ifs <;> norm_num

theorem ganaScore_bounds (x y : String) : 0 ≤ ganaScore x y ∧ ganaScore x y ≤ 6 := by
  unfold ganaScore
  split_ifs <;> norm_num

theorem yoniScore_bounds (x y : String) : 0 ≤ yoniScore x y ∧ yoniScore x y ≤ 4 := by
  unfold yoniScore
  split_ifs <;> norm_num

theorem grahaMaitriScore_bounds (s1 s2 : String) :
    0 ≤ grahaMaitriScore s1 s2 ∧ grahaMaitriScore s1 s2 ≤ 5 := by
  unfold grahaMaitriScore
  rcases RASHI_LORD s1 with _ | l1 <;> rcases RASHI_LORD s2 with _ | l2 <;>
    dsimp only <;>
    first
    | (split_ifs <;> norm_num)
    | norm_num

theorem varnaKoota_bounds (s1 s2 : String) :
    0 ≤ varnaKoota s1 s2 ∧ varnaKoota s1 s2 ≤ 1 := by
  unfold varnaKoota
  have h1 := varnaScoreDir_bounds (varnaFromRashi s1) (varnaFromRashi s2)
  have h2 := varnaScoreDir_bounds (varnaFromRashi s2) (varnaFromRashi s1)
  constructor <;> linarith [h1.1, h1.2, h2.1, h2.2]

theorem vashyaKoota_bounds (s1 s2 : String) :
    0 ≤ vashyaKoota s1 s2 ∧ vashyaKoota s1 s2 ≤ 2 := by
  unfold vashyaKoota
  have h1 := vashyaScoreDir_bounds (vashyaGroup s1) (vashyaGroup s2)
  have h2 := vashyaScoreDir_bounds (vashyaGroup s2) (vashyaGroup s1)
  constructor <;> linarith [h1.1, h1.2, h2.1, h2.2]

theorem taraKoota_bounds (n1 n2 : ℤ) :
    0 ≤ taraKoota n1 n2 ∧ taraKoota n1 n2 ≤ 3 := by
  unfold taraKoota
  split_ifs
  · have h1 := taraScoreDir_bounds n1 n2
    have h2 := taraScoreDir_bounds n2 n1
    constructor <;> linarith [h1.1, h1.2, h2.1, h2.2]
  · norm_num

theorem yoniKoota_bounds (x y : String) :
    0 ≤ yoniKoota x y ∧ yoniKoota x y ≤ 4 := yoniScore_bounds _ _

theorem ganaKoota_bounds (x y : String) :
    0 ≤ ganaKoota x y ∧ ganaKoota x y ≤ 6 := ganaScore_bounds _ _

theorem bhakootKoota_bounds (r1 r2 : ℤ) :
    0 ≤ bhakootKoota r1 r2 ∧ bhakootKoota r1 r2 ≤ 7 := by
  unfold bhakootKoota
  split_ifs
  · exact bhakootScoreDir_bounds r1 r2
  · norm_num

theorem nadiKoota_bounds (x y : String) :
    0 ≤ nadiKoota x y ∧ nadiKoota x y ≤ 8 := nadiScore_bounds _ _

end Astrova

namespace Astrova

open Planet

/-- Fallback item used only to totalize list access in statements. -/
def dfltScoreItem : ScoreItem := { category := "", score := 0, maxScore := 0 }

/-- C7: for every pair of validated charts, each Ashtakoota entry's score
lies in [0, its maximum], the maxima are the documented 1..8 (and 36 for
the overall entry), and the overall score is the sum of the eight
sub-scores (hence lies in [0, 36]). -/
theorem claim_C7 (m1 m2 : MoonInfo) :
    (∀ item ∈ ashtakootaScores m1 m2, 0 ≤ item.score ∧ item.score ≤ item.maxScore) ∧
    (ashtakootaScores m1 m2).map ScoreItem.maxScore = [1, 2, 3, 4, 5, 6, 7, 8, 36] ∧
    ((ashtakootaScores m1 m2).getLastD dfltScoreItem).score
      = (((ashtakootaScores m1 m2).take 8).map ScoreItem.score).sum := by
  have hva := varnaKoota_bounds (signName m1.signIdx) (signName m2.signIdx)
  have hvs := vashyaKoota_bounds (signName m1.signIdx) (signName m2.signIdx)
  have hta := taraKoota_bounds (m1.nakIdx.val + 1) (m2.nakIdx.val + 1)
  have hyo := yoniKoota_bounds (nakName m1.nakIdx) (nakName m2.nakIdx)
  have hma := grahaMaitriScore_bounds (signName m1.signIdx) (signName m2.signIdx)
  have hga := ganaKoota_bounds (nakName m1.nakIdx) (nakName m2.nakIdx)
  have hbh := bhakootKoota_bounds (m1.signIdx.val) (m2.signIdx.val)
  have hna := nadiKoota_bounds (nakName m1.nakIdx) (nakName m2.nakIdx)
  refine ⟨?_, rfl, ?_⟩
  · intro item hitem
    simp only [ashtakootaScores, List.mem_cons, List.not_mem_nil, or_false] at hitem
    rcases hitem with rfl | rfl | rfl | rfl | rfl | rfl | rfl | rfl | rfl <;>
      dsimp only <;>
      constructor <;>
      linarith [hva.1, hva.2, hvs.1, hvs.2, hta.1, hta.2, hyo.1, hyo.2,
        hma.1, hma.2, hga.1, hga.2, hbh.1, hbh.2, hna.1, hna.2]
  · simp only [ashtakootaScores, List.getLastD, List.take, List.map_cons,
      List.map_nil, List.sum_cons, List.sum_nil, List.getLast]
    ring

end Astrova

namespace Astrova

open Planet

/-! ### Symmetry of the Ashtakoota sub-scores -/

theorem varnaKoota_comm (s1 s2 : String) : varnaKoota s1 s2 = varnaKoota s2 s1 := by
  unfold varnaKoota
  ring

theorem vashyaKoota_comm (s1 s2 : String) : vashyaKoota s1 s2 = vashyaKoota s2 s1 := by
  unfold vashyaKoota
  ring

theorem taraKoota_comm (n1 n2 : ℤ) : taraKoota n1 n2 = taraKoota n2 n1 := by
  unfold taraKoota
  by_cases h : 1 ≤ n1 ∧ n1 ≤ 27 ∧ 1 ≤ n2 ∧ n2 ≤ 27
  · rw [if_pos h, if_pos ⟨h.2.2.1, h.2.2.2, h.1, h.2.1⟩]
    ring
  · rw [if_neg h, if_neg (fun hc => h ⟨hc.2.2.1, hc.2.2.2, hc.1, hc.2.1⟩)]

theorem yoniHostile_comm (y1 y2 : String) (h : yoniHostile y1 y2) : yoniHostile y2 y1 := by
  unfold yoniHostile at *
  rcases h with h | h | h | h | h | h | h | h | h | h | h | h
  · exact Or.inr (Or.inl ⟨h.2, h.1⟩)
  · exact Or.inl ⟨h.2, h.1⟩
  · exact Or.inr (Or.inr (Or.inr (Or.inl ⟨h.2, h.1⟩)))
  · exact Or.inr (Or.inr (Or.inl ⟨h.2, h.1⟩))
  · exact Or.inr (Or.inr (Or.inr (Or.inr (Or.inr (Or.inl ⟨h.2, h.1⟩)))))
  · exact Or.inr (Or.inr (Or.inr (Or.inr (Or.inl ⟨h.2, h.1⟩))))
  · exact Or.inr (Or.inr (Or.inr (Or.inr (Or.inr (Or.inr (Or.inr
      (Or.inl ⟨h.2, h.1⟩)))))))
  · exact Or.inr (Or.inr (Or.inr (Or.inr (Or.inr (Or.inr (Or.inl ⟨h.2, h.1⟩))))))
  · exact Or.inr (Or.inr (Or.inr (Or.inr (Or.inr (Or.inr (Or.inr (Or.inr (Or.inr
      (Or.inl ⟨h.2, h.1⟩)))))))))
  · exact Or.inr (Or.inr (Or.inr (Or.inr (Or.inr (Or.inr (Or.inr (Or.inr
      (Or.inl ⟨h.2, h.1⟩))))))))
  · exact Or.inr (Or.inr (Or.inr (Or.inr (Or.inr (Or.inr (Or.inr (Or.inr (Or.inr
      (Or.inr (Or.inr ⟨h.2, h.1⟩))))))))))
  · exact Or.inr (Or.inr (Or.inr (Or.inr (Or.inr (Or.inr (Or.inr (Or.inr (Or.inr
      (Or.inr (Or.inl ⟨h.2, h.1⟩))))))))))

set_option maxHeartbeats 1600000 in
theorem yoniScore_comm (y1 y2 : String) : yoniScore y1 y2 = yoniScore y2 y1 := by
  unfold yoniScore
  split_ifs <;>
    first
    | rfl
    | tauto
    | (exfalso; exact absurd (yoniHostile_comm y1 y2 (by assumption)) (by assumption))
    | (exfalso; exact absurd (yoniHostile_comm y2 y1 (by assumption)) (by assumption))
    | simp_all

theorem yoniKoota_comm (nak1 nak2 : String) :
    yoniKoota nak1 nak2 = yoniKoota nak2 nak1 := yoniScore_comm _ _

set_option maxHeartbeats 1600000 in
theorem grahaMaitriScore_comm (s1 s2 : String) :
    grahaMaitriScore s1 s2 = grahaMaitriScore s2 s1 := by
  unfold grahaMaitriScore
  rcases RASHI_LORD s1 with _ | l1 <;> rcases RASHI_LORD s2 with _ | l2 <;>
    dsimp only <;>
    split_ifs <;>
    first
    | rfl
    | tauto

set_option maxHeartbeats 1600000 in
theorem ganaScore_comm (g1 g2 : String) : ganaScore g1 g2 = ganaScore g2 g1 := by
  unfold ganaScore
  split_ifs <;>
    first
    | rfl
    | tauto
    | simp_all

theorem ganaKoota_comm (nak1 nak2 : String) :
    ganaKoota nak1 nak2 = ganaKoota nak2 nak1 := ganaScore_comm _ _

theorem nadiScore_comm (x y : String) : nadiScore x y = nadiScore y x := by
  unfold nadiScore
  split_ifs <;>
    first
    | rfl
    | tauto
    | simp_all

theorem nadiKoota_comm (nak1 nak2 : String) :
    nadiKoota nak1 nak2 = nadiKoota nak2 nak1 := nadiScore_comm _ _

theorem bhakootScoreDir_comm (r1 r2 : ℤ) :
    bhakootScoreDir r1 r2 = bhakootScoreDir r2 r1 := by
  simp only [bhakootScoreDir]
  have hiff : ((r2 - r1) % 12 + 1 = 2 ∨ (r2 - r1) % 12 + 1 = 12 ∨ (r2 - r1) % 12 + 1 = 5
        ∨ (r2 - r1) % 12 + 1 = 9 ∨ (r2 - r1) % 12 + 1 = 6 ∨ (r2 - r1) % 12 + 1 = 8)
      ↔ ((r1 - r2) % 12 + 1 = 2 ∨ (r1 - r2) % 12 + 1 = 12 ∨ (r1 - r2) % 12 + 1 = 5
        ∨ (r1 - r2) % 12 + 1 = 9 ∨ (r1 - r2) % 12 + 1 = 6 ∨ (r1 - r2) % 12 + 1 = 8) := by
    omega
  by_cases h : (r2 - r1) % 12 + 1 = 2 ∨ (r2 - r1) % 12 + 1 = 12 ∨ (r2 - r1) % 12 + 1 = 5
      ∨ (r2 - r1) % 12 + 1 = 9 ∨ (r2 - r1) % 12 + 1 = 6 ∨ (r2 - r1) % 12 + 1 = 8
  · rw [if_pos h, if_pos (hiff.mp h)]
  · rw [if_neg h, if_neg (fun hc => h (hiff.mpr hc))]

theorem bhakootKoota_comm (r1 r2 : ℤ) : bhakootKoota r1 r2 = bhakootKoota r2 r1 := by
  unfold bhakootKoota
  by_cases h : 0 ≤ r1 ∧ r1 ≤ 11 ∧ 0 ≤ r2 ∧ r2 ≤ 11
  · rw [if_pos h, if_pos ⟨h.2.2.1, h.2.2.2, h.1, h.2.1⟩, bhakootScoreDir_comm]
  · rw [if_neg h, if_neg (fun hc => h ⟨hc.2.2.1, hc.2.2.2, hc.1, hc.2.1⟩)]

/-- C10: the Ashtakoota scorer is symmetric — swapping the two charts
leaves every sub-score and the overall total unchanged. -/
theorem claim_C10 (m1 m2 : MoonInfo) :
    ashtakootaScores m1 m2 = ashtakootaScores m2 m1 := by
  simp only [ashtakootaScores]
  rw [varnaKoota_comm (signName m1.signIdx) (signName m2.signIdx),
    vashyaKoota_comm (signName m1.signIdx) (signName m2.signIdx),
    taraKoota_comm ((m1.nakIdx.val : ℤ) + 1) ((m2.nakIdx.val : ℤ) + 1),
    yoniKoota_comm (nakName m1.nakIdx) (nakName m2.nakIdx),
    grahaMaitriScore_comm (signName m1.signIdx) (signName m2.signIdx),
    ganaKoota_comm (nakName m1.nakIdx) (nakName m2.nakIdx),
    bhakootKoota_comm ((m1.signIdx.val : ℤ)) ((m2.signIdx.val : ℤ)),
    nadiKoota_comm (nakName m1.nakIdx) (nakName m2.nakIdx)]

end Astrova

namespace Astrova

open Planet

/-! ### Request validation (src/main.py:92-103, 652-676) -/

/-- `KundaliRequest` (main.py:92): raw birth parameters of the request
body (the optional ayanamsha/use_utc fields play no part in validation). -/
structure KundaliRequest where
  year : ℤ
  month : ℤ
  day : ℤ
  hour : ℤ
  minute : ℤ
  second : ℤ
  tzOffsetHours : ℚ
  latitude : ℚ
  longitude : ℚ

/-- The conjunction of the pydantic `Field` range constraints declared on
`KundaliRequest` (main.py:93-101). -/
def validKundaliRequest (r : KundaliRequest) : Prop :=
  1 ≤ r.year ∧ r.year ≤ 3000 ∧
  1 ≤ r.month ∧ r.month ≤ 12 ∧
  1 ≤ r.day ∧ r.day ≤ 31 ∧
  0 ≤ r.hour ∧ r.hour ≤ 23 ∧
  0 ≤ r.minute ∧ r.minute ≤ 59 ∧
  0 ≤ r.second ∧ r.second ≤ 59 ∧
  -12 ≤ r.tzOffsetHours ∧ r.tzOffsetHours ≤ 14 ∧
  -90 ≤ r.latitude ∧ r.latitude ≤ 90 ∧
  -180 ≤ r.longitude ∧ r.longitude ≤ 180

instance (r : KundaliRequest) : Decidable (validKundaliRequest r) := by
  unfold validKundaliRequest
  infer_instance

/-- Error taxonomy of the endpoint as seen by a client: a request failing
model validation is rejected as invalid input. -/
inductive ApiError where
  | invalidInput
deriving DecidableEq

/-- The `/api/kundali` endpoint (main.py:652): FastAPI validates the
request model against its `Field` constraints before the handler body runs,
so the chart computation `kundali(birth_input)` — here an abstract
`compute` covering the ephemeris calls and all scoring — is reached only
for valid requests. -/
def kundaliEndpoint {α : Type} (compute : KundaliRequest → α)
    (r : KundaliRequest) : Except ApiError α :=
  if validKundaliRequest r then .ok (compute r) else .error .invalidInput

/-- C9: a request with out-of-range birth parameters — calendar fields
outside the declared ranges, |latitude| > 90 or |longitude| > 180 — is
rejected as invalid input before any computation: the result is the
InvalidInput error, is independent of the chart-computation function, and
is never a chart. -/
theorem claim_C9 {α : Type} (compute compute2 : KundaliRequest → α)
    (r : KundaliRequest)
    (hbad : ¬(1 ≤ r.year ∧ r.year ≤ 3000) ∨ ¬(1 ≤ r.month ∧ r.month ≤ 12) ∨
      ¬(1 ≤ r.day ∧ r.day ≤ 31) ∨ ¬(0 ≤ r.hour ∧ r.hour ≤ 23) ∨
      ¬(0 ≤ r.minute ∧ r.minute ≤ 59) ∨ ¬(0 ≤ r.second ∧ r.second ≤ 59) ∨
      90 < |r.latitude| ∨ 180 < |r.longitude|) :
    kundaliEndpoint compute r = Except.error ApiError.invalidInput ∧
    kundaliEndpoint compute r = kundaliEndpoint compute2 r ∧
    ∀ chart : α, kundaliEndpoint compute r ≠ Except.ok chart := by
  have hinvalid : ¬validKundaliRequest r := by
    intro hv
    obtain ⟨h1, h2, h3, h4, h5, h6, h7, h8, h9, h10, h11, h12, h13, h14,
      h15, h16, h17, h18⟩ := hv
    rcases hbad with h | h | h | h | h | h | h | h
    · exact h ⟨h1, h2⟩
    · exact h ⟨h3, h4⟩
    · exact h ⟨h5, h6⟩
    · exact h ⟨h7, h8⟩
    · exact h ⟨h9, h10⟩
    · exact h ⟨h11, h12⟩
    · exact absurd (abs_le.mpr ⟨h15, h16⟩) (not_le.mpr h)
    · exact absurd (abs_le.mpr ⟨h17, h18⟩) (not_le.mpr h)
  refine ⟨?_, ?_, ?_⟩
  · rw [kundaliEndpoint, if_neg hinvalid]
  · rw [kundaliEndpoint, if_neg hinvalid, kundaliEndpoint, if_neg hinvalid]
  · intro chart hc
    rw [kundaliEndpoint, if_neg hinvalid] at hc
    exact Except.noConfusion hc

/-- A concrete invalid request: latitude 91 is out of range. -/
def badRequest : KundaliRequest :=
  { year := 2000, month := 1, day := 1, hour := 12, minute := 0, second := 0,
    tzOffsetHours := 0, latitude := 91, longitude := 0 }

/-- C9 witness: the latitude-91 request is rejected as invalid input for
any two chart-computation functions, producing no chart. -/
theorem claim_C9_witness :
    kundaliEndpoint (fun _ => (0 : ℕ)) badRequest
        = Except.error ApiError.invalidInput ∧
    kundaliEndpoint (fun _ => (0 : ℕ)) badRequest
        = kundaliEndpoint (fun _ => (1 : ℕ)) badRequest ∧
    ∀ chart : ℕ, kundaliEndpoint (fun _ => (0 : ℕ)) badRequest ≠ Except.ok chart :=
  claim_C9 (fun _ => (0 : ℕ)) (fun _ => (1 : ℕ)) badRequest
    (by norm_num [badRequest])

end Astrova
